import Mathlib

/-!
Verification development for the validation / healing / simulation core of the
ankaios-dashboard repository.  The Python sources are embedded shallowly:

  * YAML documents are modelled by the inductive `Yaml` (mapping keys are
    restricted to strings; every document the claims touch is string-keyed).
    A configuration *text* is represented by the outcome of `yaml.safe_load`
    on it, type `ParsedYaml`; `yaml.safe_dump` of a value is represented by
    `Except.ok` of that value (serialisation round-trips through `safe_load`,
    so textual comparison of dumped texts coincides with value comparison).
  * Python numbers are modelled by `Int` (exact arithmetic in place of
    floats; the embedded claims concern control flow and bookkeeping, not
    rounding).
  * Python exceptions are modelled with `Except PyErr`; exception messages
    are abbreviated but discriminate the exception class and the attribute
    or value involved.
  * Wall-clock data (timestamps, durations) is omitted from reports and
    timeline events.
  * CPython `set` iteration order is implementation defined; wherever the
    source converts a set to a list (`list(set(...))`, `list(missing)`) the
    embedding fixes first-insertion order.  No claim depends on that order.
-/

/-!
A YAML value as produced by `yaml.safe_load` (string-keyed mappings).
Sequences and mappings are mutual inductives (rather than nested `List`s)
so that structural recursion over documents stays kernel-reducible; the
conversions `YamlSeq.toList` / `YamlMap.toList` and `ofList` give the
list view the embedded code works with.
-/
mutual

inductive Yaml where
  | null : Yaml
  | bool (b : Bool) : Yaml
  | int (n : Int) : Yaml
  | str (s : String) : Yaml
  | list (xs : YamlSeq) : Yaml
  | map (kvs : YamlMap) : Yaml

inductive YamlSeq where
  | nil : YamlSeq
  | cons (hd : Yaml) (tl : YamlSeq) : YamlSeq

inductive YamlMap where
  | nil : YamlMap
  | cons (key : String) (val : Yaml) (tl : YamlMap) : YamlMap

end

instance : Inhabited Yaml := ⟨.null⟩

def YamlSeq.toList : YamlSeq → List Yaml
  | .nil => []
  | .cons x xs => x :: xs.toList

def YamlSeq.ofList : List Yaml → YamlSeq
  | [] => .nil
  | x :: xs => .cons x (YamlSeq.ofList xs)

def YamlMap.toList : YamlMap → List (String × Yaml)
  | .nil => []
  | .cons k v xs => (k, v) :: xs.toList

def YamlMap.ofList : List (String × Yaml) → YamlMap
  | [] => .nil
  | (k, v) :: xs => .cons k v (YamlMap.ofList xs)

/-- Build a mapping value from a key/value list. -/
def ymap (kvs : List (String × Yaml)) : Yaml := .map (.ofList kvs)

/-- Build a sequence value from a value list. -/
def ylist (xs : List Yaml) : Yaml := .list (.ofList xs)

mutual

/-- Structural equality of YAML values (Python `==` on parsed documents). -/
def Yaml.beq : Yaml → Yaml → Bool
  | .null, .null => true
  | .bool a, .bool b => a == b
  | .int a, .int b => a == b
  | .str a, .str b => a == b
  | .list xs, .list ys => YamlSeq.beq xs ys
  | .map xs, .map ys => YamlMap.beq xs ys
  | _, _ => false

def YamlSeq.beq : YamlSeq → YamlSeq → Bool
  | .nil, .nil => true
  | .cons x xs, .cons y ys => Yaml.beq x y && YamlSeq.beq xs ys
  | _, _ => false

def YamlMap.beq : YamlMap → YamlMap → Bool
  | .nil, .nil => true
  | .cons k v xs, .cons k2 v2 ys => k == k2 && Yaml.beq v v2 && YamlMap.beq xs ys
  | _, _ => false

end

instance : BEq Yaml := ⟨Yaml.beq⟩

/-- The result of `yaml.safe_load` on a document text: either a parse error
message or a value.  This type stands for a configuration text throughout. -/
abbrev ParsedYaml := Except String Yaml

/-- Python exception classes raised by the embedded code. -/
inductive PyErr where
  | attributeError (msg : String)
  | typeError (msg : String)
  | valueError (msg : String)
  | keyError (msg : String)
  | yamlError (msg : String)
deriving DecidableEq, Repr, Inhabited

def PyErr.message : PyErr → String
  | .attributeError m => m
  | .typeError m => m
  | .valueError m => m
  | .keyError m => m
  | .yamlError m => m

/-- Name of a value's Python type, as used in exception messages. -/
def Yaml.typeName : Yaml → String
  | .null => "NoneType"
  | .bool _ => "bool"
  | .int _ => "int"
  | .str _ => "str"
  | .list _ => "list"
  | .map _ => "dict"

def Yaml.isMap : Yaml → Bool
  | .map _ => true
  | _ => false

def Yaml.isStr : Yaml → Bool
  | .str _ => true
  | _ => false

/-- Python truthiness of a value. -/
def Yaml.truthy : Yaml → Bool
  | .null => false
  | .bool b => b
  | .int n => n != 0
  | .str s => !s.isEmpty
  | .list xs => !xs.toList.isEmpty
  | .map kvs => !kvs.toList.isEmpty

/-- `str(v)` for the scalar values that appear inside issue messages. -/
def Yaml.pyStr : Yaml → String
  | .null => "None"
  | .bool b => if b then "True" else "False"
  | .int n => toString n
  | .str s => s
  | .list _ => "<list>"
  | .map _ => "<dict>"

/-- First-occurrence association lookup (Python dicts have unique keys). -/
def assocLookup (kvs : List (String × Yaml)) (k : String) : Option Yaml :=
  match kvs.find? (fun kv => kv.1 == k) with
  | some kv => some kv.2
  | none => none

/-- Python dict assignment `d[k] = v`: update in place when the key exists
(keeping its position), append otherwise. -/
def assocSet (kvs : List (String × Yaml)) (k : String) (v : Yaml) :
    List (String × Yaml) :=
  if kvs.any (fun kv => kv.1 == k) then
    kvs.map (fun kv => if kv.1 == k then (kv.1, v) else kv)
  else kvs ++ [(k, v)]

/-- Python `d.pop(k, None)` on a dict: drop the key if present. -/
def assocPop (kvs : List (String × Yaml)) (k : String) : List (String × Yaml) :=
  kvs.filter (fun kv => kv.1 != k)

/-- `d.get(k, default)`: AttributeError unless the receiver is a dict. -/
def pyGetD (v : Yaml) (key : String) (dflt : Yaml) : Except PyErr Yaml :=
  match v with
  | .map kvs => .ok ((assocLookup kvs.toList key).getD dflt)
  | other => .error (.attributeError (other.typeName ++ " object has no attribute get"))

/-- `d.items()`: AttributeError unless the receiver is a dict. -/
def pyItems (v : Yaml) : Except PyErr (List (String × Yaml)) :=
  match v with
  | .map kvs => .ok kvs.toList
  | other => .error (.attributeError (other.typeName ++ " object has no attribute items"))

/-- `d.keys()`: AttributeError unless the receiver is a dict. -/
def pyKeys (v : Yaml) : Except PyErr (List String) :=
  match v with
  | .map kvs => .ok (kvs.toList.map Prod.fst)
  | other => .error (.attributeError (other.typeName ++ " object has no attribute keys"))

/-- `d[k]` with a string key: KeyError when absent, TypeError when the
receiver is not a dict. -/
def pyGetItem (v : Yaml) (key : String) : Except PyErr Yaml :=
  match v with
  | .map kvs =>
    match assocLookup kvs.toList key with
    | some x => .ok x
    | none => .error (.keyError key)
  | other => .error (.typeError (other.typeName ++ " is not subscriptable by string"))

/-- `d[k] = x`: TypeError unless the receiver is a dict. -/
def pySetItem (v : Yaml) (key : String) (x : Yaml) : Except PyErr Yaml :=
  match v with
  | .map kvs => .ok (ymap (assocSet kvs.toList key x))
  | other => .error (.typeError (other.typeName ++ " object does not support item assignment"))

/-- `d.pop(k, None)`: AttributeError-ish failure unless the receiver is a dict
(strings have no `pop`; `list.pop` wants an integer argument). -/
def pyPopD (v : Yaml) (key : String) : Except PyErr Yaml :=
  match v with
  | .map kvs => .ok (ymap (assocPop kvs.toList key))
  | .list _ => .error (.typeError "integer argument expected for list pop")
  | other => .error (.attributeError (other.typeName ++ " object has no attribute pop"))

/-- Substring containment, the semantics of Python `needle in haystack` on
strings. -/
def strContains (hay needle : String) : Bool :=
  let h := hay.toList
  let n := needle.toList
  (List.range (h.length + 1)).any fun i => n.isPrefixOf (h.drop i)

/-- Python whitespace characters (the `\s` class / `str.strip` set). -/
def pyIsSpaceCharStr (c : Char) : Bool :=
  c == ' ' || c == '\t' || c == '\n' || c == '\r' || c == '\x0c' || c == '\x0b'

/-- Python `s.replace(a, b)` for a non-empty pattern: left-to-right,
non-overlapping (character-list implementation, kernel-reducible). -/
def strReplaceAux (pat rep : List Char) : Nat → List Char → List Char
  | 0, cs => cs
  | _, [] => []
  | fuel + 1, c :: cs =>
    if pat.isPrefixOf (c :: cs) then
      rep ++ strReplaceAux pat rep fuel ((c :: cs).drop pat.length)
    else c :: strReplaceAux pat rep fuel cs

def strReplace (s pat rep : String) : String :=
  String.mk (strReplaceAux pat.toList rep.toList (s.toList.length + 1) s.toList)

/-- ASCII-view lowercase conversion (character-list implementation). -/
def strLower (s : String) : String := String.mk (s.toList.map Char.toLower)

/-- Split on newline characters (character-list implementation of
`s.split("\n")`, which matches `str.splitlines` on the embedded texts after
the blank-line stripping that follows). -/
def strLinesAux : Nat → List Char → List Char → List String
  | 0, acc, _ => [String.mk acc.reverse]
  | _, acc, [] => [String.mk acc.reverse]
  | fuel + 1, acc, c :: cs =>
    if c == '\n' then String.mk acc.reverse :: strLinesAux fuel [] cs
    else strLinesAux fuel (c :: acc) cs

def strLines (s : String) : List String :=
  strLinesAux (s.toList.length + 1) [] s.toList

/-- Python `str.strip()` restricted to deciding blankness: true when the
string has only whitespace. -/
def strBlank (s : String) : Bool := s.toList.all pyIsSpaceCharStr

/-- Python `needle in v` for a string needle: key membership on dicts,
substring on strings, element membership on lists, TypeError otherwise. -/
def pyMem (v : Yaml) (needle : String) : Except PyErr Bool :=
  match v with
  | .map kvs => .ok (kvs.toList.any (fun kv => kv.1 == needle))
  | .str s => .ok (strContains s needle)
  | .list xs => .ok (xs.toList.any (fun x => match x with | .str t => t == needle | _ => false))
  | other => .error (.typeError ("argument of type " ++ other.typeName ++ " is not iterable"))

/-- Python `x in v` where `x` may be `None` (an absent issue field):
`None` is never a dict key or list member, and `None in <string>` raises. -/
def pyMemOpt (v : Yaml) (needle : Option String) : Except PyErr Bool :=
  match needle with
  | some s => pyMem v s
  | none =>
    match v with
    | .map _ => .ok false
    | .list xs => .ok (xs.toList.any (fun x => match x with | .null => true | _ => false))
    | .str _ => .error (.typeError "in <string> requires string as left operand, not NoneType")
    | other => .error (.typeError ("argument of type " ++ other.typeName ++ " is not iterable"))

/-- Python `for x in v` where the body uses `x` as a string: dicts yield
their keys, strings their characters, lists their members (the embedding
supports lists of strings only), everything else raises TypeError. -/
def pyIterStrings (v : Yaml) : Except PyErr (List String) :=
  match v with
  | .map kvs => .ok (kvs.toList.map Prod.fst)
  | .str s => .ok (s.toList.map fun c => String.mk [c])
  | .list xs => xs.toList.mapM fun x =>
      match x with
      | .str s => Except.ok s
      | _ => Except.error (.typeError "non-string list member in iteration")
  | other => .error (.typeError (other.typeName ++ " object is not iterable"))

/-- `s.lower()` on a value that must be a string. -/
def pyLowerStr (v : Yaml) : Except PyErr String :=
  match v with
  | .str s => .ok (strLower s)
  | other => .error (.attributeError (other.typeName ++ " object has no attribute lower"))

/-- `s.replace(a, b)` on a value that must be a string. -/
def pyReplaceStr (v : Yaml) (a b : String) : Except PyErr String :=
  match v with
  | .str s => .ok (strReplace s a b)
  | other => .error (.attributeError (other.typeName ++ " object has no attribute replace"))

/-- Python `str.islower`: at least one cased character and no uppercase one
(ASCII view, which covers the embedded documents). -/
def pyIsLower (s : String) : Bool :=
  let cs := s.toList
  cs.any (fun c => c.isLower || c.isUpper) && cs.all (fun c => !c.isUpper)

/-- `path.index(x)`: first index, ValueError when absent. -/
def pyIndex (path : List String) (x : String) : Except PyErr Nat :=
  match path.findIdx? (fun y => y == x) with
  | some i => .ok i
  | none => .error (.valueError (x ++ " is not in list"))

/-- Double-quote a string, as the f-string messages of the validators do. -/
def dq (s : String) : String := "\"" ++ s ++ "\""

/-- A validation issue; the Python code passes these around as dicts, whose
optional keys become `Option` fields here. -/
structure Issue where
  type : Option String := none
  severity : String := "ERROR"
  workload : Option String := none
  dependency : Option String := none
  message : String := ""
  cycle : Option (List String) := none
  port : Option Int := none
  recommendation : Option String := none
  conflicting_workload : Option String := none
deriving DecidableEq, Repr, Inhabited


/-- Build an issue from type tag, severity, optional workload and message. -/
def mkIss (t : String) (sev : String) (w : Option String) (m : String) : Issue :=
  { type := some t, severity := sev, workload := w, message := m }

/-! ## Schema checker — `app/validators/schema_validator.py`, `ConfigurationValidator` -/

def VALID_RUNTIMES : List String := ["podman", "docker", "podman-kube"]

def VALID_RESTART_POLICIES : List String := ["NEVER", "ALWAYS", "ON_FAILURE"]

/-- `ConfigurationValidator._validate_workload`: returns the errors and
warnings appended for one workload entry, in emission order. -/
def validateWorkload (name : String) (cfg : Yaml) :
    Except PyErr (List Issue × List Issue) := do
  let e1 := if name.isEmpty then
      [mkIss "NAMING_ERROR" "ERROR" (some name) "Workload name cannot be empty"] else []
  let e2 := if strContains name " " then
      [mkIss "NAMING_ERROR" "ERROR" (some name)
        ("Workload name " ++ dq name ++ " contains spaces")] else []
  let w1 := if !(pyIsLower name) && !name.isEmpty then
      [mkIss "NAMING_WARNING" "WARNING" (some name)
        ("Workload name " ++ dq name ++ " should be lowercase (convention)")] else []
  let hasRuntime ← pyMem cfg "runtime"
  let e3 ← if !hasRuntime then
      pure [mkIss "MISSING_FIELD" "ERROR" (some name) "Field \"runtime\" is required"]
    else do
      let runtime ← pyGetItem cfg "runtime"
      pure (if !(VALID_RUNTIMES.any (fun r => runtime == .str r)) then
        [mkIss "INVALID_VALUE" "ERROR" (some name)
          ("Invalid runtime " ++ dq runtime.pyStr ++ ". Must be one of: " ++
            String.intercalate ", " VALID_RUNTIMES)] else [])
  let hasAgent ← pyMem cfg "agent"
  let e4 := if !hasAgent then
      [mkIss "MISSING_FIELD" "ERROR" (some name) "Field \"agent\" is required"] else []
  let hasPolicy ← pyMem cfg "restartPolicy"
  let e5 ← if hasPolicy then do
      let policy ← pyGetItem cfg "restartPolicy"
      pure (if !(VALID_RESTART_POLICIES.any (fun r => policy == .str r)) then
        [mkIss "INVALID_VALUE" "ERROR" (some name)
          ("Invalid restartPolicy " ++ dq policy.pyStr ++ ". Must be one of: " ++
            String.intercalate ", " VALID_RESTART_POLICIES)] else [])
    else pure []
  let hasRC ← pyMem cfg "runtimeConfig"
  let w2 ← if !hasRC then
      pure [mkIss "MISSING_FIELD" "WARNING" (some name) "No runtimeConfig specified"]
    else do
      let rc ← pyGetItem cfg "runtimeConfig"
      let low ← pyLowerStr rc
      pure (if !(strContains low "image") then
        [{ mkIss "MISSING_IMAGE" "WARNING" (some name)
            "No container image specified in runtimeConfig" with
          recommendation := some "Add \"image: <container-image>\" to runtimeConfig" }] else [])
  pure (e1 ++ e2 ++ e3 ++ e4 ++ e5, w1 ++ w2)

/-- `ConfigurationValidator.validate_workload_config`.  The returned issue
list is errors followed by warnings; validity means no errors. -/
def validateWorkloadConfig (doc : ParsedYaml) : Except PyErr (Bool × List Issue) := do
  match doc with
  | .error e =>
    .ok (false, [mkIss "SYNTAX_ERROR" "ERROR" none ("Invalid YAML syntax: " ++ e)])
  | .ok config =>
    if !config.isMap then
      .ok (false, [mkIss "STRUCTURE_ERROR" "ERROR" none "Configuration must be a dictionary/object"])
    else do
      let hasWl ← pyMem config "workloads"
      if !hasWl then
        .ok (false,
          [mkIss "MISSING_SECTION" "ERROR" none "Configuration must have a \"workloads\" section"])
      else do
        let wl ← pyGetD config "workloads" (ymap [])
        let items ← pyItems wl
        let perW ← items.mapM (fun kv => validateWorkload kv.1 kv.2)
        let errs := (perW.map Prod.fst).flatten
        let warns := (perW.map Prod.snd).flatten
        .ok (errs.isEmpty, errs ++ warns)

/-! ## Dependency analyzer — `app/validators/dependency_validator.py`,
`DependencyValidator` -/

/-- State of the cycle-detection DFS: the `visited` and `rec_stack` sets and
the collected cycles. -/
structure DfsSt where
  visited : List String
  recStack : List String
  cycles : List (List String)
deriving Repr

/-- The neighbor loop inside the `dfs` of `detect_circular_dependencies`,
parameterised by the recursive call (`dfsF`), with the early `return True`
paths. -/
def depDfsNeighbors
    (dfsF : String → List String → DfsSt → Except PyErr (Bool × DfsSt))
    (graph : List (String × List String)) (path : List String) :
    List String → DfsSt → Except PyErr (Bool × DfsSt)
  | [], st => .ok (false, st)
  | n :: rest, st => do
    if !((graph.map Prod.fst).contains n) then
      depDfsNeighbors dfsF graph path rest st
    else if !(st.visited.contains n) then do
      let r ← dfsF n path st
      if r.1 then .ok (true, r.2)
      else depDfsNeighbors dfsF graph path rest r.2
    else if st.recStack.contains n then do
      let i ← pyIndex path n
      let cycle := path.drop i ++ [n]
      .ok (true, { st with cycles := st.cycles ++ [cycle] })
    else
      depDfsNeighbors dfsF graph path rest st

/-- The recursive `dfs` of `detect_circular_dependencies`, with an explicit
recursion-depth fuel (the fuel used by the callers below cannot run out,
since every recursive call is on a freshly visited node).  Returns the
boolean result of `dfs` together with the updated state; note the source
removes `node` from `rec_stack` only on the `False` path, and `path.index`
may raise ValueError when a stale `rec_stack` entry is met. -/
def depDfs (graph : List (String × List String)) :
    Nat → String → List String → DfsSt → Except PyErr (Bool × DfsSt)
  | 0 => fun _ _ _ => .error (.valueError "maximum recursion depth exceeded")
  | fuel + 1 => fun node path0 st0 => do
    let st1 : DfsSt :=
      { st0 with visited := st0.visited ++ [node], recStack := st0.recStack ++ [node] }
    let path := path0 ++ [node]
    let neighbors := ((graph.find? (fun kv => kv.1 == node)).map Prod.snd).getD []
    let r ← depDfsNeighbors (depDfs graph fuel) graph path neighbors st1
    match r with
    | (true, st2) => .ok (true, st2)
    | (false, st2) => .ok (false, { st2 with recStack := st2.recStack.erase node })

/-- `DependencyValidator.detect_circular_dependencies`: build the dependency
graph over the document's workloads and run the DFS from every unvisited
node. -/
def detectCircularDependencies (workloads : List (String × Yaml)) :
    Except PyErr (Bool × List (List String)) := do
  let graph ← workloads.mapM (fun kv => do
    let deps ← pyGetD kv.2 "dependencies" (ymap [])
    let ks ← pyKeys deps
    pure (kv.1, ks))
  let st ← graph.foldlM (fun st kv =>
    if !(st.visited.contains kv.1) then do
      let r ← depDfs graph (graph.length + 1) kv.1 [] st
      pure r.2
    else pure st) (⟨[], [], []⟩ : DfsSt)
  .ok (!st.cycles.isEmpty, st.cycles)

/-- `detect_circular_dependencies` applied to a raw `workloads` value (the
call sites pass `config.get('workloads', {})`, which need not be a dict). -/
def detectCircularY (wl : Yaml) : Except PyErr (Bool × List (List String)) := do
  let items ← pyItems wl
  detectCircularDependencies items

/-- `DependencyValidator.validate_dependencies`.  Only YAML parse failures
are handled; attribute/type errors from a malformed parsed value propagate
(the parsed value is accessed with `.keys()` before anything else, so a
non-dict `workloads` value or non-dict document raises). -/
def validateDependencies (currentWorkloads : List String) (doc : ParsedYaml) :
    Except PyErr (Bool × List Issue) := do
  match doc with
  | .error _ =>
    .ok (false, [mkIss "YAML_ERROR" "ERROR" none "Invalid YAML - cannot validate dependencies"])
  | .ok config => do
    let wl ← pyGetD config "workloads" (ymap [])
    let newNames ← pyKeys wl
    let allAvailable := currentWorkloads ++ newNames
    let items ← pyItems wl
    let perW ← items.mapM (fun kv => do
      let deps ← pyGetD kv.2 "dependencies" (ymap [])
      let depNames ← pyIterStrings deps
      pure (depNames.flatMap (fun depName =>
        (if !(allAvailable.contains depName) then
          [{ mkIss "MISSING_DEPENDENCY" "ERROR" (some kv.1)
              ("Dependency " ++ dq depName ++ " does not exist") with
            dependency := some depName,
            recommendation :=
              some ("Create workload " ++ dq depName ++ " first or remove this dependency") }]
         else []) ++
        (if depName == kv.1 then
          [mkIss "SELF_DEPENDENCY" "ERROR" (some kv.1)
            ("Workload " ++ dq kv.1 ++ " cannot depend on itself")]
         else []))))
    let depErrs := perW.flatten
    let cyc ← detectCircularDependencies items
    let cycErrs := if cyc.1 then
        cyc.2.map (fun cycle =>
          { mkIss "CIRCULAR_DEPENDENCY" "ERROR" none
              ("Circular dependency detected: " ++ String.intercalate " -> " cycle) with
            cycle := some cycle,
            recommendation :=
              some "Break the circular dependency by removing one of the dependencies" })
      else []
    let errs := depErrs ++ cycErrs
    .ok (errs.isEmpty, errs)

/-! ## Conflict detector — `app/validators/conflict_detector.py`,
`ResourceConflictDetector` -/

/-- A currently deployed workload as the conflict detector consumes it
(`w.get('name', 'unknown')`, `w.get('runtimeConfig', '')`). -/
structure CurrentWorkload where
  name : String
  runtimeConfig : String
deriving DecidableEq, Repr

/-- Numeric value of a run of ASCII digits. -/
def digitsToNat (cs : List Char) : Nat :=
  cs.foldl (fun a c => a * 10 + (c.toNat - 48)) 0

/-- Scan a string for the non-overlapping matches of one port pattern,
resuming after each match, as `re.findall` does. -/
def findallPorts (tryMatch : List Char → Option (Int × List Char)) :
    Nat → List Char → List Int
  | 0, _ => []
  | _, [] => []
  | fuel + 1, cs =>
    match tryMatch cs with
    | some (p, rest) => p :: findallPorts tryMatch fuel rest
    | none => findallPorts tryMatch fuel cs.tail

/-- Matcher for `-p["\s]+(\d+):\d+` at the current position: literal `-p`,
then one or more quote/whitespace characters, then the captured host-port
digits, a colon and container-port digits.  All pieces are deterministic
(greedy runs over disjoint character classes), matching the regex. -/
def tryMatchDashP (cs : List Char) : Option (Int × List Char) :=
  match cs with
  | '-' :: 'p' :: rest =>
    let sep := rest.takeWhile (fun c => c == '"' || pyIsSpaceCharStr c)
    if sep.isEmpty then none
    else
      let afterSep := rest.drop sep.length
      let ds := afterSep.takeWhile Char.isDigit
      if ds.isEmpty then none
      else
        match afterSep.drop ds.length with
        | ':' :: more =>
          let ds2 := more.takeWhile Char.isDigit
          if ds2.isEmpty then none
          else some ((digitsToNat ds : Int), more.drop ds2.length)
        | _ => none
  | _ => none

/-- Matcher for `"(\d+):\d+"` at the current position. -/
def tryMatchQuoted (cs : List Char) : Option (Int × List Char) :=
  match cs with
  | '"' :: rest =>
    let ds := rest.takeWhile Char.isDigit
    if ds.isEmpty then none
    else
      match rest.drop ds.length with
      | ':' :: more =>
        let ds2 := more.takeWhile Char.isDigit
        if ds2.isEmpty then none
        else
          match more.drop ds2.length with
          | '"' :: after => some ((digitsToNat ds : Int), after)
          | _ => none
      | _ => none
  | _ => none

/-- Matcher for `\s(\d+):\d+\s` at the current position. -/
def tryMatchBare (cs : List Char) : Option (Int × List Char) :=
  match cs with
  | c :: rest =>
    if !pyIsSpaceCharStr c then none
    else
      let ds := rest.takeWhile Char.isDigit
      if ds.isEmpty then none
      else
        match rest.drop ds.length with
        | ':' :: more =>
          let ds2 := more.takeWhile Char.isDigit
          if ds2.isEmpty then none
          else
            match more.drop ds2.length with
            | c2 :: after => if pyIsSpaceCharStr c2 then some ((digitsToNat ds : Int), after) else none
            | [] => none
        | _ => none
  | [] => none

/-- Deduplicate keeping first occurrences; stands for `list(set(ports))`
(CPython set order is implementation defined; no claim depends on it). -/
def dedupFirst (l : List Int) : List Int :=
  l.foldl (fun acc x => if acc.contains x then acc else acc ++ [x]) []

/-- `ResourceConflictDetector._extract_ports`. -/
def extractPorts (runtimeConfig : String) : List Int :=
  let cs := runtimeConfig.toList
  let fuel := cs.length + 1
  dedupFirst (findallPorts tryMatchDashP fuel cs ++
    findallPorts tryMatchQuoted fuel cs ++
    findallPorts tryMatchBare fuel cs)

/-- Association update for the `port -> workload` map. -/
def portMapSet (m : List (Int × String)) (k : Int) (v : String) : List (Int × String) :=
  if m.any (fun kv => kv.1 == k) then
    m.map (fun kv => if kv.1 == k then (kv.1, v) else kv)
  else m ++ [(k, v)]

/-- `ResourceConflictDetector.detect_conflicts` (which runs
`_check_port_conflicts`).  `re.findall` on a non-string raises TypeError. -/
def detectConflicts (currentWorkloads : List CurrentWorkload) (doc : ParsedYaml) :
    Except PyErr (Bool × List Issue) := do
  match doc with
  | .error _ =>
    .ok (false, [mkIss "YAML_ERROR" "ERROR" none "Invalid YAML - cannot check conflicts"])
  | .ok config => do
    let portMap0 := currentWorkloads.foldl (fun pm w =>
      (extractPorts w.runtimeConfig).foldl (fun pm p => portMapSet pm p w.name) pm) []
    let wl ← pyGetD config "workloads" (ymap [])
    let items ← pyItems wl
    let st ← items.foldlM (fun (st : List (Int × String) × List Issue) kv => do
      let rcY ← pyGetD kv.2 "runtimeConfig" (.str "")
      let rc ← match rcY with
        | .str s => pure s
        | other => Except.error (.typeError
            ("expected string or bytes-like object, got " ++ other.typeName))
      pure ((extractPorts rc).foldl (fun st p =>
        match st.1.find? (fun q => q.1 == p) with
        | some q =>
          if q.2 != kv.1 then
            (st.1, st.2 ++
              [{ mkIss "PORT_CONFLICT" "ERROR" (some kv.1)
                  ("Port " ++ toString p ++ " is already used by workload " ++ dq q.2) with
                port := some p,
                conflicting_workload := some q.2,
                recommendation :=
                  some ("Use a different port or stop workload " ++ dq q.2) }])
          else
            (portMapSet st.1 p kv.1, st.2)
        | none =>
          (portMapSet st.1 p kv.1, st.2)) st)) (portMap0, [])
    .ok (st.2.isEmpty, st.2)

/-! ## Validation orchestrators — `app/validators/test_executor.py`
(`PreDeploymentTester.run_validation_suite`) and
`app/validators/deployment_validator.py`
(`DeploymentValidator._run_validation_suite`) -/

/-- One entry of a report's `tests` list (durations/descriptions omitted). -/
structure TestResult where
  name : String
  status : String
  issues : List Issue
deriving DecidableEq, Repr

/-- A validation report.  For `PreDeploymentTester` the error/warning totals
live in its `summary` dict; the remaining summary statistics (test counts,
durations, timestamp) are derived data and omitted here. -/
structure Report where
  overall_status : String
  tests : List TestResult
  total_errors : Nat
  total_warnings : Nat
deriving DecidableEq, Repr

def Issue.isError (i : Issue) : Bool := i.severity == "ERROR"

def Issue.isWarning (i : Issue) : Bool := i.severity == "WARNING"

/-- Re-parsing the document inside a `try` block: a parse failure becomes a
(caught) exception. -/
def parseOrRaise (doc : ParsedYaml) : Except PyErr Yaml :=
  match doc with
  | .ok v => .ok v
  | .error e => .error (.yamlError e)

/-- `PreDeploymentTester.run_validation_suite`.  Only the circular-dependency
test is wrapped in a `try`/`except` (yielding a SKIPPED entry); exceptions
from the schema, dependency or conflict checks propagate. -/
def pdtRunValidationSuite (currentWorkloads : List CurrentWorkload) (doc : ParsedYaml) :
    Except PyErr Report := do
  let names := currentWorkloads.map (fun w => w.name)
  let s ← validateWorkloadConfig doc
  let t1 : TestResult :=
    { name := "Schema Validation", status := if s.1 then "PASSED" else "FAILED", issues := s.2 }
  let d ← validateDependencies names doc
  let t2 : TestResult :=
    { name := "Dependency Validation", status := if d.1 then "PASSED" else "FAILED",
      issues := d.2 }
  let cycRes : Except PyErr (Bool × List (List String)) := do
    let config ← parseOrRaise doc
    let wl ← pyGetD config "workloads" (ymap [])
    detectCircularY wl
  let t3 : TestResult :=
    match cycRes with
    | .ok (hasCycles, cycles) =>
      { name := "Circular Dependency Check",
        status := if hasCycles then "FAILED" else "PASSED",
        issues := cycles.map (fun cycle =>
          { mkIss "CIRCULAR_DEPENDENCY" "ERROR" none
              ("Circular dependency: " ++ String.intercalate " -> " cycle) with
            cycle := some cycle }) }
    | .error _ =>
      { name := "Circular Dependency Check", status := "SKIPPED", issues := [] }
  let c ← detectConflicts currentWorkloads doc
  let t4 : TestResult :=
    { name := "Resource Conflict Detection",
      status := if c.1 then "PASSED" else "FAILED", issues := c.2 }
  let tests := [t1, t2, t3, t4]
  let failedTests := tests.filter (fun t => t.status == "FAILED")
  let overall := if failedTests.isEmpty then "PASSED" else "FAILED"
  let totalErrors := (tests.map (fun t => (t.issues.filter Issue.isError).length)).sum
  let totalWarnings := (tests.map (fun t => (t.issues.filter Issue.isWarning).length)).sum
  .ok { overall_status := overall, tests := tests,
        total_errors := totalErrors, total_warnings := totalWarnings }

/-- `DeploymentValidator._run_validation_suite`.  The parse and the cycle and
conflict tests are guarded; schema and dependency exceptions propagate.  The
conflict test probes `check_port_conflicts`, a method that does not exist on
`ResourceConflictDetector`, so its body always raises AttributeError, which
the handler converts to a FAILED test with one WARNING issue — without
touching `overall_status`. -/
def dvRunValidationSuite (cwNames : List String) (doc : ParsedYaml) :
    Except PyErr Report := do
  match doc with
  | .error e =>
    .ok { overall_status := "FAILED",
          tests := [{ name := "YAML Parse", status := "FAILED",
                      issues := [{ severity := "ERROR", message := "Invalid YAML: " ++ e }] }],
          total_errors := 0, total_warnings := 0 }
  | .ok config => do
    let s ← validateWorkloadConfig doc
    let sErrs := s.2.filter Issue.isError
    let sWarns := s.2.filter Issue.isWarning
    let t1 : TestResult :=
      { name := "Schema Validation", status := if s.1 then "PASSED" else "FAILED", issues := s.2 }
    let f1 := !sErrs.isEmpty
    let d ← validateDependencies cwNames doc
    let dErrs := d.2.filter Issue.isError
    let dWarns := d.2.filter Issue.isWarning
    let t2 : TestResult :=
      { name := "Dependency Validation", status := if d.1 then "PASSED" else "FAILED",
        issues := d.2 }
    let f2 := !dErrs.isEmpty
    let cycRes : Except PyErr (Bool × List (List String)) := do
      let wl ← pyGetD config "workloads" (ymap [])
      detectCircularY wl
    let (t3, f3, e3) :=
      match cycRes with
      | .ok (hasCycles, cycles) =>
        let cycleIssues := cycles.map (fun cycle =>
          mkIss "CIRCULAR_DEPENDENCY" "ERROR" none
            ("Circular dependency detected: " ++ String.intercalate " -> " cycle))
        (({ name := "Circular Dependency Check",
            status := if hasCycles then "FAILED" else "PASSED",
            issues := cycleIssues } : TestResult),
         hasCycles,
         if hasCycles then cycleIssues.length else 0)
      | .error err =>
        (({ name := "Circular Dependency Check", status := "FAILED",
            issues := [{ severity := "ERROR",
                         message := "Circular dependency check failed: " ++ err.message }] }
           : TestResult),
         true, 1)
    -- `self.conflict_detector.check_port_conflicts(...)`: the attribute does
    -- not exist, so the lookup raises before any conflict logic runs.
    let conflictRes : Except PyErr (List String) :=
      .error (.attributeError
        "ResourceConflictDetector object has no attribute check_port_conflicts")
    let (t4, w4) :=
      match conflictRes with
      | .ok conflicts =>
        let conflictIssues := conflicts.map (fun c =>
          mkIss "RESOURCE_CONFLICT" "WARNING" none ("Port conflict: " ++ c))
        (({ name := "Resource Conflict Detection",
            status := if !conflicts.isEmpty then "FAILED" else "PASSED",
            issues := conflictIssues } : TestResult),
         conflictIssues.length)
      | .error err =>
        (({ name := "Resource Conflict Detection", status := "FAILED",
            issues := [{ severity := "WARNING",
                         message := "Conflict detection failed: " ++ err.message }] }
           : TestResult),
         1)
    let overall := if f1 || f2 || f3 then "FAILED" else "PASSED"
    .ok { overall_status := overall,
          tests := [t1, t2, t3, t4],
          total_errors := sErrs.length + dErrs.length + e3,
          total_warnings := sWarns.length + dWarns.length + w4 }

/-- `DeploymentValidator._extract_errors_from_report`. -/
def extractErrors (r : Report) : List Issue :=
  (r.tests.map (fun t => t.issues.filter Issue.isError)).flatten

/-! ## Remediator — `app/validators/config_remediator.py`,
`ConfigurationRemediator.auto_fix` -/

def remedDefaultAgent : String := "agent_A"

def remedValidRuntimes : List String := ["podman", "podman-kube"]

/-- Character class `[a-zA-Z0-9\-\.]` of the image regex. -/
def imageCharA (c : Char) : Bool := c.isAlphanum || c == '-' || c == '.'

/-- Character class `[a-zA-Z0-9\-\./]` of the image regex. -/
def imageCharB (c : Char) : Bool := imageCharA c || c == '/'

/-- The `(?:[/:][a-zA-Z0-9\-\./]*)*` part of the image token: repeatedly a
`/` or `:` followed by a greedy run of class-B characters (this greedy loop
also absorbs the optional trailing `:tag` group of the regex). -/
def imageTokenLoop : Nat → List Char → (List Char × List Char)
  | 0, cs => ([], cs)
  | fuel + 1, cs =>
    match cs with
    | c :: rest =>
      if c == '/' || c == ':' then
        let b := rest.takeWhile imageCharB
        let r := imageTokenLoop fuel (rest.drop b.length)
        (c :: (b ++ r.1), r.2)
      else ([], cs)
    | [] => ([], [])

/-- Match `(image:\s*)([a-zA-Z0-9\-\.]+(?:[/:][a-zA-Z0-9\-\./]*)*(?::...)?)`
at the current position: the literal `image:`, greedy whitespace, then the
image token.  Returns (matched group-1 characters, image name, rest). -/
def tryMatchImage (cs : List Char) : Option (List Char × String × List Char) :=
  let lit := ['i', 'm', 'a', 'g', 'e', ':']
  if lit.isPrefixOf cs then
    let rest := cs.drop 6
    let sp := rest.takeWhile pyIsSpaceCharStr
    let afterSp := rest.drop sp.length
    let a := afterSp.takeWhile imageCharA
    if a.isEmpty then none
    else
      let r := imageTokenLoop afterSp.length (afterSp.drop a.length)
      some (lit ++ sp, String.mk (a ++ r.1), r.2)
  else none

/-- The `fix_image` replacement decision for one matched image name. -/
def fixImageName (wname : String) (nm : String) : String × List String :=
  if strContains nm "ghcr.io/example" || strContains nm "/example/" then
    ("docker.io/library/alpine:latest",
     ["Replaced placeholder image in " ++ wname ++ ": " ++ dq nm ++ " → " ++
      dq "docker.io/library/alpine:latest" ++ " (non-existent registry)."])
  else if strContains nm "/" then (nm, [])
  else
    ("docker.io/library/" ++ nm,
     ["Qualified image in " ++ wname ++ ": " ++ dq nm ++ " → " ++
      dq ("docker.io/library/" ++ nm) ++ "."])

/-- `re.sub` of the image pattern over a `runtimeConfig` text: scan left to
right, replace non-overlapping matches, resume after each match. -/
def fixImagesGo (wname : String) : Nat → List Char → (List Char × List String)
  | 0, cs => (cs, [])
  | fuel + 1, cs =>
    match tryMatchImage cs with
    | some (pre, nm, rest) =>
      let rep := fixImageName wname nm
      let r := fixImagesGo wname fuel rest
      (pre ++ rep.1.toList ++ r.1, rep.2 ++ r.2)
    | none =>
      match cs with
      | [] => ([], [])
      | c :: rest =>
        let r := fixImagesGo wname fuel rest
        (c :: r.1, r.2)

def fixImages (wname : String) (rc : String) : String × List String :=
  let r := fixImagesGo wname (rc.toList.length + 1) rc.toList
  (String.mk r.1, r.2)

/-- Leading-space count (`len(l) - len(l.lstrip(' '))`). -/
def leadSpaces (l : String) : Nat := (l.toList.takeWhile (fun c => c == ' ')).length

/-- The unconditional `runtimeConfig` whitespace normalisation: strip `\r`
and NUL, drop leading/trailing blank lines, remove the common leading space
indentation.  (`str.splitlines` also splits on rarer control characters;
none occur in the embedded documents.) -/
def normalizeRC (s : String) : String :=
  let s1 := String.mk (s.toList.filter (fun c => c != '\r' && c != '\x00'))
  let lines0 := strLines s1
  let lines1 := lines0.dropWhile strBlank
  let lines := (lines1.reverse.dropWhile strBlank).reverse
  if lines.isEmpty then ""
  else
    let indents := (lines.filter (fun l => !(strBlank l))).map leadSpaces
    let minIndent := match indents.min? with
      | some m => m
      | none => 0
    String.intercalate "\n" (lines.map (fun l => String.mk (l.toList.drop minIndent)))

/-- One iteration of `auto_fix`'s issue loop: given the current `workloads`
value and log, apply the (at most one) rule matching this issue.  Mirrors
the `elif` chain of the source, including the early `continue` when the
issue's workload is not a key of `workloads`. -/
def autoFixStep (st : Yaml × List String) (issue : Issue) :
    Except PyErr (Yaml × List String) := do
  let workloads := st.1
  let log := st.2
  let msg := issue.message
  let mem ← pyMemOpt workloads issue.workload
  if !mem then
    pure st
  else
    match issue.workload with
    | none =>
      -- only reachable when `workloads` is a list containing None
      Except.error (.typeError "list indices must be integers, not NoneType")
    | some wn => do
      let w ← pyGetItem workloads wn
      if strContains msg "Field \"runtime\" is required" then
        let rt := remedValidRuntimes.headD ""
        let w2 ← pySetItem w "runtime" (.str rt)
        let workloads2 ← pySetItem workloads wn w2
        pure (workloads2,
          log ++ ["Added missing \"runtime\" to " ++ wn ++ ": set to " ++ dq rt ++ "."])
      else if strContains msg "Invalid runtime" then
        let rt := remedValidRuntimes.headD ""
        let w2 ← pySetItem w "runtime" (.str rt)
        let workloads2 ← pySetItem workloads wn w2
        pure (workloads2, log ++ ["Corrected invalid runtime for " ++ wn ++ " → " ++ dq rt ++ "."])
      else if strContains msg "Field \"agent\" is required" then
        let w2 ← pySetItem w "agent" (.str remedDefaultAgent)
        let workloads2 ← pySetItem workloads wn w2
        pure (workloads2,
          log ++ ["Added missing \"agent\" to " ++ wn ++ ": set to " ++ dq remedDefaultAgent ++ "."])
      else if strContains msg "contains spaces" || strContains msg "should be lowercase" then
        let newName := strLower (strReplace wn " " "_")
        let wkvs ← pyItems workloads
        pure (ymap (assocSet (assocPop wkvs wn) newName w),
          log ++ ["Renamed workload " ++ dq wn ++ " → " ++ dq newName ++ "."])
      else if strContains msg "No runtimeConfig specified" then
        let w2 ← pySetItem w "runtimeConfig" (.str "image: alpine:latest")
        let workloads2 ← pySetItem workloads wn w2
        pure (workloads2,
          log ++ ["Inserted minimal runtimeConfig for " ++ wn ++ " (\"image: alpine:latest\")."])
      else if strContains msg "depends on" && strContains msg "doesn't exist" then
        let depName := issue.dependency.getD "unknown"
        let hasDeps ← pyMem w "dependencies"
        if hasDeps then
          let deps ← pyGetItem w "dependencies"
          let deps2 ← pyPopD deps depName
          let w2 ← pySetItem w "dependencies" deps2
          let log2 := log ++
            ["Removed invalid dependency " ++ dq depName ++ " from " ++ dq wn ++ "."]
          let dcur ← pyGetItem w2 "dependencies"
          let w3 ← if !dcur.truthy then pyPopD w2 "dependencies" else pure w2
          let workloads2 ← pySetItem workloads wn w3
          pure (workloads2, log2)
        else pure (workloads, log)
      else if issue.type == some "SELF_DEPENDENCY" ||
          strContains msg "cannot depend on itself" then
        let hasDeps ← pyMem w "dependencies"
        if hasDeps then
          let deps ← pyGetItem w "dependencies"
          let selfIn ← pyMem deps wn
          if selfIn then
            let deps2 ← pyPopD deps wn
            let w2 ← pySetItem w "dependencies" deps2
            let log2 := log ++ ["Removed self-dependency from " ++ dq wn ++ "."]
            let dcur ← pyGetItem w2 "dependencies"
            let w3 ← if !dcur.truthy then pyPopD w2 "dependencies" else pure w2
            let workloads2 ← pySetItem workloads wn w3
            pure (workloads2, log2)
          else pure (workloads, log)
        else pure (workloads, log)
      else if issue.type == some "CIRCULAR_DEPENDENCY" && issue.cycle.isSome then
        let cycle := issue.cycle.getD []
        if cycle.length >= 2 then
          let src := cycle.headD ""
          let dst := (cycle.drop 1).headD ""
          let srcIn ← pyMem workloads src
          if srcIn then
            let wsrc ← pyGetItem workloads src
            let hasDeps ← pyMem wsrc "dependencies"
            if hasDeps then
              let deps ← pyGetItem wsrc "dependencies"
              let dstIn ← pyMem deps dst
              if dstIn then
                let deps2 ← pyPopD deps dst
                let w2 ← pySetItem wsrc "dependencies" deps2
                let log2 := log ++
                  ["Removed dependency " ++ dq dst ++ " from " ++ dq src ++
                   " to break circular dependency."]
                let dcur ← pyGetItem w2 "dependencies"
                let w3 ← if !dcur.truthy then pyPopD w2 "dependencies" else pure w2
                let workloads2 ← pySetItem workloads src w3
                pure (workloads2, log2)
              else pure (workloads, log)
            else pure (workloads, log)
          else pure (workloads, log)
        else pure (workloads, log)
      else if strContains msg "Port" && strContains msg "already used" then
        let hasRC ← pyMem w "runtimeConfig"
        let pTruthy := match issue.port with
          | some p => p != 0
          | none => false
        if hasRC && pTruthy then
          let p := issue.port.getD 0
          let rc ← pyGetItem w "runtimeConfig"
          let newRc ← pyReplaceStr rc (toString p) (toString (p + 1))
          let w2 ← pySetItem w "runtimeConfig" (.str newRc)
          let workloads2 ← pySetItem workloads wn w2
          pure (workloads2,
            log ++ ["Adjusted port conflict for " ++ wn ++ ": " ++ toString p ++ " → " ++
                    toString (p + 1) ++ "."])
        else pure (workloads, log)
      else pure (workloads, log)

/-- The unconditional image-qualification pass over all workloads. -/
def imagePass (workloads : Yaml) (log : List String) :
    Except PyErr (Yaml × List String) := do
  let kvs ← pyItems workloads
  let r := kvs.foldl (fun (acc : List (String × Yaml) × List String) kv =>
    match kv.2 with
    | .map wm =>
      match assocLookup wm.toList "runtimeConfig" with
      | some (.str rcv) =>
        let fr := fixImages kv.1 rcv
        (acc.1 ++ [(kv.1, ymap (assocSet wm.toList "runtimeConfig" (.str fr.1)))], acc.2 ++ fr.2)
      | _ => (acc.1 ++ [kv], acc.2)
    | _ => (acc.1 ++ [kv], acc.2)) ([], log)
  pure (ymap r.1, r.2)

/-- The unconditional whitespace-normalisation pass over all workloads. -/
def normalizePass (workloads : Yaml) : Except PyErr Yaml := do
  let kvs ← pyItems workloads
  pure (ymap (kvs.map (fun kv =>
    match kv.2 with
    | .map wm =>
      match assocLookup wm.toList "runtimeConfig" with
      | some (.str rcv) => (kv.1, ymap (assocSet wm.toList "runtimeConfig" (.str (normalizeRC rcv))))
      | _ => kv
    | _ => kv)))

/-- The `dependencies` sanitisation pass (`isinstance(k, str)` always holds
in the string-keyed embedding). -/
def sanitizePass (workloads : Yaml) (log : List String) :
    Except PyErr (Yaml × List String) := do
  let kvs ← pyItems workloads
  let r := kvs.foldl (fun (acc : List (String × Yaml) × List String) kv =>
    match kv.2 with
    | .map wm =>
      match assocLookup wm.toList "dependencies" with
      | some (.map dm) =>
        let sanitized := dm.toList.map (fun dkv =>
          (dkv.1, if dkv.2.isMap then dkv.2 else ymap []))
        if sanitized.isEmpty then
          (acc.1 ++ [(kv.1, ymap (assocPop wm.toList "dependencies"))],
           acc.2 ++ ["Removed empty dependencies from " ++ dq kv.1 ++ "."])
        else
          (acc.1 ++ [(kv.1, ymap (assocSet wm.toList "dependencies" (ymap sanitized)))], acc.2)
      | some _ =>
        (acc.1 ++ [(kv.1, ymap (assocPop wm.toList "dependencies"))],
         acc.2 ++ ["Removed invalid dependencies field from " ++ dq kv.1 ++ " (not a mapping)."])
      | none => (acc.1 ++ [kv], acc.2)
    | _ => (acc.1 ++ [kv], acc.2)) ([], log)
  pure (ymap r.1, r.2)

/-- The final empty-`dependencies` cleanup pass, with its logging condition
(`'Removed' not in str(remediation_log)` holds exactly when no log entry
contains `Removed`). -/
def cleanupPass (issues : List Issue) (workloads : Yaml) (log : List String) :
    Except PyErr (Yaml × List String) := do
  let kvs ← pyItems workloads
  let r := kvs.foldl (fun (acc : List (String × Yaml) × List String) kv =>
    match kv.2 with
    | .map wm =>
      match assocLookup wm.toList "dependencies" with
      | some deps =>
        if !deps.truthy then
          let dropped := acc.1 ++ [(kv.1, ymap (assocPop wm.toList "dependencies"))]
          if issues.any (fun i => i.workload == some kv.1) then (dropped, acc.2)
          else if !(acc.2.any (fun l => strContains l "Removed")) then
            (dropped, acc.2 ++ ["Cleaned up empty dependencies dict in " ++ kv.1 ++ "."])
          else (dropped, acc.2)
        else (acc.1 ++ [kv], acc.2)
      | none => (acc.1 ++ [kv], acc.2)
    | _ => (acc.1 ++ [kv], acc.2)) ([], log)
  pure (ymap r.1, r.2)

/-- `ConfigurationRemediator.auto_fix`.  Returns the re-serialised document
(`yaml.safe_dump` modelled as `Except.ok` of the value) and the remediation
log.  Raises only where the Python raises (e.g. item assignment on a
non-dict workload spec); its own YAML parse failures are caught. -/
def autoFix (configYaml : ParsedYaml) (issues : List Issue) :
    Except PyErr (ParsedYaml × List String) := do
  match configYaml with
  | .error e => .ok (configYaml, ["Failed to parse YAML during remediation: " ++ e])
  | .ok config =>
    match config with
    | .map ckvs =>
      if !(ckvs.toList.any (fun kv => kv.1 == "workloads")) then
        .ok (configYaml, ["Invalid configuration structure — no workloads found."])
      else do
        let workloads0 := (assocLookup ckvs.toList "workloads").getD .null
        let st1 ← issues.foldlM autoFixStep (workloads0, [])
        let st2 ← imagePass st1.1 st1.2
        let wl3 ← normalizePass st2.1
        let st4 ← sanitizePass wl3 st2.2
        let st5 ← cleanupPass issues st4.1 st4.2
        let finalConfig := ymap (assocSet ckvs.toList "workloads" st5.1)
        let logOut := if st5.2.isEmpty then
            ["No auto-fixes applied — configuration already valid."]
          else st5.2
        .ok (.ok finalConfig, logOut)
    | _ => .ok (configYaml, ["Invalid configuration structure — no workloads found."])

/-! ## Healing orchestrator — `app/validators/deployment_validator.py`,
`DeploymentValidator.validate_and_heal` -/

/-- Equality test on parse outcomes, standing for the Python comparison of
the remediator's output text with the input text. -/
instance : BEq ParsedYaml where
  beq a b :=
    match a, b with
    | .ok x, .ok y => x == y
    | .error e, .error f => e == f
    | _, _ => false

/-- The `healing_report` sub-dict of a healing result. -/
structure HealingReport where
  attempted : Bool
  logs : List String
  remaining_issues : Option (List Issue)
deriving DecidableEq, Repr

/-- The result dict of `validate_and_heal`.  The source stores the healed
re-validation report inside `validation_report['healed_validation']`; here it
is the separate field `healed_validation`. -/
structure HealResult where
  success : Bool
  original_valid : Bool
  healed : Bool
  final_valid : Bool
  config : ParsedYaml
  validation_report : Report
  healed_validation : Option Report
  healing_report : HealingReport

/-- `DeploymentValidator.validate_and_heal`: Validate → Heal → Re-validate.
There is no `try`/`except` anywhere in this method, so any exception from
the suite or the remediator propagates to the caller. -/
def validateAndHeal (cwNames : List String) (configYaml : ParsedYaml) (autoHeal : Bool) :
    Except PyErr HealResult := do
  let report ← dvRunValidationSuite cwNames configYaml
  let allErrors := extractErrors report
  if allErrors.isEmpty then
    .ok { success := true, original_valid := true, healed := false, final_valid := true,
          config := configYaml, validation_report := report, healed_validation := none,
          healing_report := { attempted := false,
                              logs := ["Configuration is valid. No healing required."],
                              remaining_issues := none } }
  else if autoHeal then do
    let fix ← autoFix configYaml allErrors
    let healedYaml := fix.1
    let logs0 := fix.2
    let healed := !(healedYaml == configYaml)
    if healed then do
      let healedReport ← dvRunValidationSuite cwNames healedYaml
      let healedErrors := extractErrors healedReport
      if healedErrors.isEmpty then
        .ok { success := true, original_valid := false, healed := true, final_valid := true,
              config := healedYaml, validation_report := report,
              healed_validation := some healedReport,
              healing_report := { attempted := true,
                                  logs := logs0 ++
                                    ["✓ Configuration healed and re-validated successfully!"],
                                  remaining_issues := none } }
      else
        .ok { success := false, original_valid := false, healed := true, final_valid := false,
              config := healedYaml, validation_report := report,
              healed_validation := some healedReport,
              healing_report := { attempted := true,
                                  logs := logs0 ++
                                    ["✗ Configuration healed but " ++
                                     toString healedErrors.length ++
                                     " issues remain. Manual intervention required."],
                                  remaining_issues := some healedErrors } }
    else
      .ok { success := false, original_valid := false, healed := false, final_valid := false,
            config := healedYaml, validation_report := report, healed_validation := none,
            healing_report := { attempted := true,
                                logs := logs0 ++ ["No automatic fixes could be applied."],
                                remaining_issues := none } }
  else
    .ok { success := false, original_valid := false, healed := false, final_valid := false,
          config := configYaml, validation_report := report, healed_validation := none,
          healing_report := { attempted := false,
                              logs := ["Auto-healing disabled. Configuration validation failed and manual fixes required."],
                              remaining_issues := none } }

/-! ## Deployment simulators — `app/deployment/deployment_simulator.py` and
`app/simulation/deployment_simulator.py`.

Workload specs are embedded at the typed level the simulators consume:
`depends_on` (list of names, absent/None treated as `[]` by `or []`),
`dependencies` (the keys of a `dependencies` mapping when it is a dict),
and numeric `resources` (`cpu`/`memory`, absent keys default to 0).  The two
files share an identical admission loop (modulo timestamps, omitted here),
embedded once as `admitLoop`; their topological sorts differ and are
embedded separately. -/

structure SimResources where
  cpu : Option Int
  memory : Option Int
deriving DecidableEq, Repr, Inhabited

structure SimSpec where
  depends_on : Option (List String)
  dependencies : Option (List String)
  resources : Option SimResources
deriving DecidableEq, Repr, Inhabited

abbrev SimWorkloads := List (String × SimSpec)

structure Capacity where
  cpu : Int
  memory : Int
deriving DecidableEq, Repr

/-- A timeline event (timestamps omitted). -/
inductive SimEvent where
  | starting (service : String) (cpu memory used_cpu_before used_mem_before : Int)
  | failed_to_start (service : String) (cpu memory : Int) (note : String)
  | started (service : String) (cpu memory used_cpu_after used_mem_after : Int)
deriving DecidableEq, Repr

inductive SimIssue where
  | circular_dependency (cycles : List (List String))
  | missing_dependency (nodes : List String) (message : String)
  | resource_overcommit (service : String) (message : String)
deriving DecidableEq, Repr

structure SimResult where
  success : Bool
  issues : List SimIssue
  plan_order : List String
  timeline : List SimEvent
deriving DecidableEq, Repr

def simLookup (w : SimWorkloads) (svc : String) : Option SimSpec :=
  match w.find? (fun kv => kv.1 == svc) with
  | some kv => some kv.2
  | none => none

/-- `float(resources.get("cpu", 0.0))` with `svc_meta.get("resources", {}) or {}`. -/
def specCpu (s : SimSpec) : Int :=
  match s.resources with
  | some r => r.cpu.getD 0
  | none => 0

def specMem (s : SimSpec) : Int :=
  match s.resources with
  | some r => r.memory.getD 0
  | none => 0

/-- `workloads[node].get("depends_on", []) or []`. -/
def specDepsOn (s : SimSpec) : List String := s.depends_on.getD []

/-! ### `deployment/deployment_simulator.py` (`DeploySim` namespace) -/

namespace DeploySim

/-- DFS state of this file's `topo_sort`: the `visited` marking dict
(1 = visiting, 2 = done), the post-order `result`, and recorded cycles. -/
structure TopoSt where
  visited : List (String × Nat)
  result : List String
  cycles : List (List String)
deriving Repr

def markSet (m : List (String × Nat)) (k : String) (v : Nat) : List (String × Nat) :=
  if m.any (fun kv => kv.1 == k) then
    m.map (fun kv => if kv.1 == k then (kv.1, v) else kv)
  else m ++ [(k, v)]

def markGet (m : List (String × Nat)) (k : String) : Option Nat :=
  match m.find? (fun kv => kv.1 == k) with
  | some kv => some kv.2
  | none => none

/-- The `dfs` of this file's `topo_sort`: an unknown node is appended to the
result as a leaf; this version reads only `depends_on`.  The boolean return
value of the Python `dfs` is discarded by its callers (`if not ok: pass`),
so only the state is threaded.  Fuel bounds the recursion depth and cannot
run out at the fuel the callers use, since every recursive call is on a node
not yet marked. -/
def dfs (w : SimWorkloads) : Nat → String → List String → TopoSt → TopoSt
  | 0, _, _, st => st
  | fuel + 1, node, stack, st =>
    if (simLookup w node).isNone then
      { st with visited := markSet st.visited node 2, result := st.result ++ [node] }
    else if markGet st.visited node == some 1 then
      { st with cycles := st.cycles ++ [stack ++ [node]] }
    else if markGet st.visited node == some 2 then st
    else
      let st1 := { st with visited := markSet st.visited node 1 }
      let deps := specDepsOn ((simLookup w node).getD default)
      let st2 := deps.foldl (fun acc d => dfs w fuel d (stack ++ [node]) acc) st1
      { st2 with visited := markSet st2.visited node 2, result := st2.result ++ [node] }

/-- This file's `topo_sort`: note the final `list(reversed(result))` applied
to an already dependency-first post-order. -/
def topoSort (w : SimWorkloads) : Bool × List String × Option (List (List String)) :=
  let st := w.foldl (fun st kv =>
    if (markGet st.visited kv.1).isNone then dfs w (w.length + 1) kv.1 [] st else st)
    (⟨[], [], []⟩ : TopoSt)
  if !st.cycles.isEmpty then (false, [], some st.cycles)
  else (true, st.result.reverse, none)

end DeploySim

/-! ### `simulation/deployment_simulator.py` (`SimuSim` namespace) -/

namespace SimuSim

structure TopoSt where
  visited : List (String × Nat)
  result : List String
  cycles : List (List String)
  missing : List String
deriving Repr

/-- The `dfs` of this file's `topo_sort`: an unknown node is recorded in the
`missing` set (first-insertion order) and is not part of the result; when
`depends_on` is empty, the keys of a `dependencies` mapping are used. -/
def dfs (w : SimWorkloads) : Nat → String → List String → TopoSt → TopoSt
  | 0, _, _, st => st
  | fuel + 1, node, stack, st =>
    if (simLookup w node).isNone then
      { st with missing := if st.missing.contains node then st.missing
                           else st.missing ++ [node] }
    else if DeploySim.markGet st.visited node == some 1 then
      { st with cycles := st.cycles ++ [stack ++ [node]] }
    else if DeploySim.markGet st.visited node == some 2 then st
    else
      let st1 := { st with visited := DeploySim.markSet st.visited node 1 }
      let meta := (simLookup w node).getD default
      let deps0 := specDepsOn meta
      let deps := if deps0.isEmpty then
          match meta.dependencies with
          | some ks => ks
          | none => deps0
        else deps0
      let st2 := deps.foldl (fun acc d => dfs w fuel d (stack ++ [node]) acc) st1
      { st2 with visited := DeploySim.markSet st2.visited node 2,
                 result := st2.result ++ [node] }

/-- This file's `topo_sort`: the post-order result is returned as-is
(`ordered = result.copy()`), so dependencies precede dependents. -/
def topoSort (w : SimWorkloads) :
    Bool × List String × Option (List (List String)) × List String :=
  let st := w.foldl (fun st kv =>
    if (DeploySim.markGet st.visited kv.1).isNone then dfs w (w.length + 1) kv.1 [] st else st)
    (⟨[], [], [], []⟩ : TopoSt)
  if !st.cycles.isEmpty then (false, [], some st.cycles, st.missing)
  else (true, st.result, none, st.missing)

end SimuSim

/-- CPU demand of a service as the admission loop reads it
(`workloads.get(svc, {}) or {}` then `resources.get("cpu", 0.0)`). -/
def cpuOf (w : SimWorkloads) (svc : String) : Int := specCpu ((simLookup w svc).getD default)

def memOf (w : SimWorkloads) (svc : String) : Int := specMem ((simLookup w svc).getD default)

def cpuSum (w : SimWorkloads) (l : List String) : Int := (l.map (cpuOf w)).sum

def memSum (w : SimWorkloads) (l : List String) : Int := (l.map (memOf w)).sum

/-- The boolean overcommit guard of the admission loop for one service at
given cumulative usage. -/
def stepOver (w : SimWorkloads) (cap : Capacity) (uc um : Int) (svc : String) : Bool :=
  uc + cpuOf w svc > cap.cpu || um + memOf w svc > cap.memory

/-- The overcommit message: `Resource overcommit when starting {svc}: CPU
{used+cpu}/{cap}, MEM {used+mem}/{cap}` (float formatting abstracted). -/
def overcommitMsg (svc : String) (cpuTotal capCpu memTotal capMem : Int) : String :=
  "Resource overcommit when starting " ++ svc ++ ": CPU " ++ toString cpuTotal ++ "/" ++
    toString capCpu ++ ", MEM " ++ toString memTotal ++ "/" ++ toString capMem

/-- The admission loop shared verbatim by both `simulate_deployment`
implementations: walk the order once, emit `starting`, stop at the first
overcommit with one `resource_overcommit` issue and a `failed_to_start`
event, otherwise commit the usage and emit `started`. -/
def admitLoop (w : SimWorkloads) (cap : Capacity) (order : List String) :
    List String → Int → Int → List SimEvent → List SimIssue → SimResult
  | [], _, _, tl, is =>
    { success := true, issues := is, plan_order := order, timeline := tl }
  | svc :: rest, usedCpu, usedMem, tl, is =>
    let cpu := cpuOf w svc
    let mem := memOf w svc
    let tl1 := tl ++ [SimEvent.starting svc cpu mem usedCpu usedMem]
    if stepOver w cap usedCpu usedMem svc then
      let msg := overcommitMsg svc (usedCpu + cpu) cap.cpu (usedMem + mem) cap.memory
      { success := false,
        issues := is ++ [SimIssue.resource_overcommit svc msg],
        plan_order := order,
        timeline := tl1 ++ [SimEvent.failed_to_start svc cpu mem msg] }
    else
      admitLoop w cap order rest (usedCpu + cpu) (usedMem + mem)
        (tl1 ++ [SimEvent.started svc cpu mem (usedCpu + cpu) (usedMem + mem)]) is

/-- `deployment/deployment_simulator.py`'s `simulate_deployment`. -/
def DeploySim.simulateDeployment (w : SimWorkloads) (cap : Capacity) : SimResult :=
  match DeploySim.topoSort w with
  | (false, _, cycles) =>
    { success := false, issues := [SimIssue.circular_dependency (cycles.getD [])],
      plan_order := [], timeline := [] }
  | (true, order, _) => admitLoop w cap order order 0 0 [] []

/-- `simulation/deployment_simulator.py`'s `simulate_deployment`: also
reports missing referenced workloads as one advisory issue. -/
def SimuSim.simulateDeployment (w : SimWorkloads) (cap : Capacity) : SimResult :=
  match SimuSim.topoSort w with
  | (false, _, cycles, _) =>
    { success := false, issues := [SimIssue.circular_dependency (cycles.getD [])],
      plan_order := [], timeline := [] }
  | (true, order, _, missing) =>
    let issues0 := if missing.isEmpty then []
      else [SimIssue.missing_dependency missing
             ("Missing referenced workloads: " ++ String.intercalate ", " missing)]
    admitLoop w cap order order 0 0 [] issues0

/-! ## Statement helpers and concrete inputs for the claims -/

def SimEvent.isStarted : SimEvent → Bool
  | .started _ _ _ _ _ => true
  | _ => false

/-- The `cpu` field of an event. -/
def SimEvent.cpuDemand : SimEvent → Int
  | .starting _ c _ _ _ => c
  | .failed_to_start _ c _ _ => c
  | .started _ c _ _ _ => c

def SimEvent.memDemand : SimEvent → Int
  | .starting _ _ m _ _ => m
  | .failed_to_start _ _ m _ => m
  | .started _ _ m _ _ => m

/-- `used_cpu_after` of a `started` event (0 for other events). -/
def SimEvent.cpuAfter : SimEvent → Int
  | .started _ _ _ a _ => a
  | _ => 0

def SimEvent.memAfter : SimEvent → Int
  | .started _ _ _ _ a => a
  | _ => 0

def SimEvent.service : SimEvent → String
  | .starting s _ _ _ _ => s
  | .failed_to_start s _ _ _ => s
  | .started s _ _ _ _ => s

def SimIssue.isOvercommit : SimIssue → Bool
  | .resource_overcommit _ _ => true
  | _ => false

/-- The `started` events of a timeline, in order. -/
def startedOf (tl : List SimEvent) : List SimEvent := tl.filter SimEvent.isStarted

/-- Whether position `i` of the order overcommits, given that the first `i`
entries were admitted (cumulative usage is their demand sum). -/
def overcommitAt (w : SimWorkloads) (cap : Capacity) (order : List String) (i : Nat) : Bool :=
  stepOver w cap (cpuSum w (order.take i)) (memSum w (order.take i)) (order.getD i "")

/-- The timeline of a fully admitted run of the loop over `pending`, starting
from cumulative usage `(uc, um)`. -/
def okTimeline (w : SimWorkloads) : List String → Int → Int → List SimEvent
  | [], _, _ => []
  | svc :: rest, uc, um =>
    SimEvent.starting svc (cpuOf w svc) (memOf w svc) uc um ::
    SimEvent.started svc (cpuOf w svc) (memOf w svc) (uc + cpuOf w svc) (um + memOf w svc) ::
    okTimeline w rest (uc + cpuOf w svc) (um + memOf w svc)

/-- `seqFits w cap l uc um`: every prefix of `l` is admitted without
overcommit when starting from usage `(uc, um)`. -/
def seqFits (w : SimWorkloads) (cap : Capacity) : List String → Int → Int → Prop
  | [], _, _ => True
  | svc :: rest, uc, um =>
    stepOver w cap uc um svc = false ∧
      seqFits w cap rest (uc + cpuOf w svc) (um + memOf w svc)

/-- A report test list has a FAILED entry. -/
def Report.hasFailedTest (r : Report) : Bool :=
  r.tests.any (fun t => t.status == "FAILED")

/-- Yaml shorthand: a workload spec mapping. -/
def ym (kvs : List (String × Yaml)) : Yaml := ymap kvs

/-- A one-key document `{workloads: ...}`. -/
def wldoc (kvs : List (String × Yaml)) : ParsedYaml := .ok (ym [("workloads", ym kvs)])

/-- C1: a schema/dependency/cycle-clean document (`runtimeConfig` is optional). -/
def docC1 : ParsedYaml :=
  wldoc [("app", ym [("runtime", .str "podman"), ("agent", .str "agent_A")])]

/-- C3/C8-style three-workload chain used by the simulation claims. -/
def wlC3 : SimWorkloads :=
  [("database", { depends_on := some [], dependencies := none,
                  resources := some { cpu := some 2, memory := some 2048 } }),
   ("backend", { depends_on := some ["database"], dependencies := none,
                 resources := some { cpu := some 2, memory := some 1024 } }),
   ("frontend", { depends_on := some ["backend"], dependencies := none,
                  resources := some { cpu := some 1, memory := some 512 } })]

def capC3 : Capacity := { cpu := 8, memory := 8192 }

/-- C4 witness input: the first workload alone exceeds the CPU capacity. -/
def wlC4 : SimWorkloads :=
  [("a", { depends_on := some [], dependencies := none,
           resources := some { cpu := some 10, memory := some 4096 } }),
   ("b", { depends_on := some ["a"], dependencies := none,
           resources := some { cpu := some 10, memory := some 4096 } })]

def capC4 : Capacity := { cpu := 8, memory := 8192 }

/-- C5: a workload with one dangling dependency. -/
def docC5 : ParsedYaml :=
  wldoc [("web", ym [("runtime", .str "podman"), ("agent", .str "agent_A"),
                     ("dependencies", ym [("db", ym [])])])]

/-- The MISSING_DEPENDENCY issue the Dependency Analyzer emits for `docC5`. -/
def missIssC5 : Issue :=
  { mkIss "MISSING_DEPENDENCY" "ERROR" (some "web") "Dependency \"db\" does not exist" with
    dependency := some "db",
    recommendation := some "Create workload \"db\" first or remove this dependency" }

/-- C6: a workload whose runtimeConfig declares host port 8080 mapped to
container port 8080. -/
def docC6 : ParsedYaml := wldoc [("api", ym [("runtimeConfig", .str "-p 8080:8080")])]

/-- A PORT_CONFLICT issue for port 8080 of workload `api`. -/
def issC6 : Issue :=
  { mkIss "PORT_CONFLICT" "ERROR" (some "api")
      "Port 8080 is already used by workload \"other\"" with
    port := some 8080 }

/-- The document after `auto_fix`: the single textual replace changed the
container port as well. -/
def docC6fixed : ParsedYaml := wldoc [("api", ym [("runtimeConfig", .str "-p 8081:8081")])]

/-- C7: a workload whose spec is a plain string. -/
def docC7 : ParsedYaml := wldoc [("app", .str "x")]

/-- C8: three workloads in a cycle a → b → c → a. -/
def docC8 : ParsedYaml :=
  wldoc [("a", ym [("dependencies", ym [("b", ym [])])]),
         ("b", ym [("dependencies", ym [("c", ym [])])]),
         ("c", ym [("dependencies", ym [("a", ym [])])])]

/-- The CIRCULAR_DEPENDENCY issue emitted for `docC8`. -/
def cycIssC8 : Issue :=
  { mkIss "CIRCULAR_DEPENDENCY" "ERROR" none
      "Circular dependency detected: a -> b -> c -> a" with
    cycle := some ["a", "b", "c", "a"],
    recommendation := some "Break the circular dependency by removing one of the dependencies" }

/-- C9: a workload whose name contains a space and whose runtime is missing;
the first heal pass renames it, which makes the remaining fix miss. -/
def docC9 : ParsedYaml := wldoc [("my app", ym [("agent", .str "agent_A")])]

/-- Run `validate_and_heal` on a document and again on the config the first
pass returns; used to state the idempotence claim. -/
def twoHealPasses (cwNames : List String) (doc : ParsedYaml) :
    Except PyErr (Bool × Bool × Bool) := do
  let r1 ← validateAndHeal cwNames doc true
  let r2 ← validateAndHeal cwNames r1.config true
  pure (r1.healed, r2.healed, r2.config == r1.config)

/-- C10: a negative `cpu` demand makes cumulative usage decrease. -/
def wlC10 : SimWorkloads :=
  [("a", { depends_on := some [], dependencies := none,
           resources := some { cpu := some 5, memory := some 0 } }),
   ("b", { depends_on := some [], dependencies := none,
           resources := some { cpu := some (-3), memory := some 0 } })]

def capC10 : Capacity := { cpu := 10, memory := 10 }

instance : Inhabited HealingReport := ⟨⟨false, [], none⟩⟩

instance : Inhabited Report := ⟨⟨"", [], 0, 0⟩⟩

instance : Inhabited HealResult :=
  ⟨{ success := false, original_valid := false, healed := false, final_valid := false,
     config := Except.ok Yaml.null, validation_report := default, healed_validation := none,
     healing_report := default }⟩

/-- The result of the first `validate_and_heal` pass on a document (used to
state witnesses; `default` is never reached on the inputs used). -/
def firstHealPass (cwNames : List String) (doc : ParsedYaml) : HealResult :=
  match validateAndHeal cwNames doc true with
  | .ok r => r
  | .error _ => default


/-- The overcommit issue the admission loop emits when position `i` of the
order is the first to exceed capacity. -/
def overIssueAt (w : SimWorkloads) (cap : Capacity) (order : List String) (i : Nat) : SimIssue :=
  SimIssue.resource_overcommit (order.getD i "")
    (overcommitMsg (order.getD i "")
      (cpuSum w (order.take i) + cpuOf w (order.getD i "")) cap.cpu
      (memSum w (order.take i) + memOf w (order.getD i "")) cap.memory)

/-- The timeline produced up to and including the failure at position `i`. -/
def failTimelineAt (w : SimWorkloads) (cap : Capacity) (order : List String) (i : Nat) :
    List SimEvent :=
  okTimeline w (order.take i) 0 0 ++
    [SimEvent.starting (order.getD i "") (cpuOf w (order.getD i "")) (memOf w (order.getD i ""))
       (cpuSum w (order.take i)) (memSum w (order.take i)),
     SimEvent.failed_to_start (order.getD i "") (cpuOf w (order.getD i "")) (memOf w (order.getD i ""))
       (overcommitMsg (order.getD i "")
         (cpuSum w (order.take i) + cpuOf w (order.getD i "")) cap.cpu
         (memSum w (order.take i) + memOf w (order.getD i "")) cap.memory)]

/-- The advisory issue list the `simulation/` variant starts with. -/
def missingIssues (missing : List String) : List SimIssue :=
  if missing.isEmpty then []
  else [SimIssue.missing_dependency missing
         ("Missing referenced workloads: " ++ String.intercalate ", " missing)]

/-- The `started` events of a fully admitted run over `l` from usage
`(uc, um)`. -/
def startedSeq (w : SimWorkloads) : List String → Int → Int → List SimEvent
  | [], _, _ => []
  | svc :: rest, uc, um =>
    SimEvent.started svc (cpuOf w svc) (memOf w svc) (uc + cpuOf w svc) (um + memOf w svc) ::
      startedSeq w rest (uc + cpuOf w svc) (um + memOf w svc)

/-- The report `PreDeploymentTester.run_validation_suite` produces for
`docC1` with no current workloads. -/
def pdtReportC1 : Report :=
  { overall_status := "PASSED",
    tests := [{ name := "Schema Validation", status := "PASSED",
                issues := [{ type := some "MISSING_FIELD", severity := "WARNING",
                             workload := some "app",
                             message := "No runtimeConfig specified" }] },
              { name := "Dependency Validation", status := "PASSED", issues := [] },
              { name := "Circular Dependency Check", status := "PASSED", issues := [] },
              { name := "Resource Conflict Detection", status := "PASSED", issues := [] }],
    total_errors := 0, total_warnings := 1 }

/-- The report `DeploymentValidator._run_validation_suite` produces for
`docC1`: the conflict test FAILED, the overall status still PASSED. -/
def dvReportC1 : Report :=
  { overall_status := "PASSED",
    tests := [{ name := "Schema Validation", status := "PASSED",
                issues := [{ type := some "MISSING_FIELD", severity := "WARNING",
                             workload := some "app",
                             message := "No runtimeConfig specified" }] },
              { name := "Dependency Validation", status := "PASSED", issues := [] },
              { name := "Circular Dependency Check", status := "PASSED", issues := [] },
              { name := "Resource Conflict Detection", status := "FAILED",
                issues := [{ severity := "WARNING",
                             message := "Conflict detection failed: ResourceConflictDetector object has no attribute check_port_conflicts" }] }],
    total_errors := 0, total_warnings := 2 }

/-! ## Claim theorems -/

theorem exceptBindOk {α β : Type} (a : α) (f : α → Except PyErr β) :
    (Except.ok a >>= f) = f a := rfl

theorem exceptBindErr {α β : Type} (e : PyErr) (f : α → Except PyErr β) :
    ((Except.error e : Except PyErr α) >>= f) = Except.error e := rfl

/-- Counterexample to C1: on a document that passes schema, dependency and
cycle checks, `DeploymentValidator._run_validation_suite` returns a report
whose Resource Conflict Detection test is FAILED while `overall_status` is
PASSED — a FAILED test does not force FAILED overall status. -/
theorem C1_counterexample :
    (dvRunValidationSuite [] docC1).map
      (fun r => (r.overall_status, r.hasFailedTest)) = Except.ok ("PASSED", true) := by
  rfl

/-- Counterexample to C2: on input text parsing to a list, the
`PreDeploymentTester` suite does not return a report, but propagates the
dependency sub-check's AttributeError to the caller. -/
theorem C2_counterexample :
    pdtRunValidationSuite [] (Except.ok (ylist [])) =
      Except.error (PyErr.attributeError "list object has no attribute get") := by
  rfl

/-- Claim C3 (code bug evidence): on the three-workload chain
database ← backend ← frontend with capacity `{cpu 8, mem 8192}`, the
`simulation/` simulator returns success with the dependency-first order
`[database, backend, frontend]` and a started event for each of the three,
while the `deployment/` simulator — whose `topo_sort` reverses an already
dependency-first post-order, contradicting its own comment — returns the
dependents-first order `[frontend, backend, database]`. -/
theorem C3_plan_order_eval :
    (SimuSim.simulateDeployment wlC3 capC3).success = true ∧
    (SimuSim.simulateDeployment wlC3 capC3).plan_order = ["database", "backend", "frontend"] ∧
    (startedOf (SimuSim.simulateDeployment wlC3 capC3).timeline).map SimEvent.service =
      ["database", "backend", "frontend"] ∧
    (DeploySim.simulateDeployment wlC3 capC3).plan_order = ["frontend", "backend", "database"] := by
  refine ⟨rfl, rfl, rfl, rfl⟩

/-- Claim C5 (code bug evidence): for the document with workload `web`
depending on the nonexistent `db`, the Dependency Analyzer emits exactly
the MISSING_DEPENDENCY issue `missIssC5` (message `Dependency "db" does not
exist`), and `auto_fix` on that document and issue list applies no fix at
all: the returned document still equals the input, dangling dependency
included, because the remediator matches on `"depends on"`/`"doesn't
exist"`, which never occur in the validator's message. -/
theorem C5_missing_dependency_not_removed :
    validateDependencies [] docC5 = Except.ok (false, [missIssC5]) ∧
    autoFix docC5 [missIssC5] =
      Except.ok (docC5, ["No auto-fixes applied — configuration already valid."]) := by
  refine ⟨rfl, rfl⟩

/-- Counterexample to C6: fixing the PORT_CONFLICT on port 8080 for a
workload whose runtimeConfig is `-p 8080:8080` rewrites it to
`-p 8081:8081` — the container port changes along with the host port,
because the fix is a plain textual replace of the digits. -/
theorem C6_counterexample :
    autoFix docC6 [issC6] =
      Except.ok (docC6fixed, ["Adjusted port conflict for api: 8080 → 8081."]) := by
  rfl

/-- Counterexample to C7: on a document whose workload spec is a plain
string, `validate_and_heal` does not return a HealingResult; the dependency
sub-check's AttributeError propagates to the caller. -/
theorem C7_counterexample :
    validateAndHeal [] docC7 true =
      Except.error (PyErr.attributeError "str object has no attribute get") := by
  rfl

set_option maxHeartbeats 2000000 in
/-- Counterexample to C9: for the document with workload `my app` (name
containing a space, runtime missing), the first `validate_and_heal` pass
only renames the workload, so the second pass on its output heals again:
both passes report `healed = true` and the second pass changes the config. -/
theorem C9_counterexample :
    twoHealPasses [] docC9 = Except.ok (true, true, false) := by
  rfl

/-- Counterexample to C10: with demands cpu 5 and cpu −3 the simulation
admits both workloads and the `started` events' `used_cpu_after` values are
`[5, 2]` — cumulative usage decreases. -/
theorem C10_counterexample :
    (startedOf (SimuSim.simulateDeployment wlC10 capC10).timeline).map SimEvent.cpuAfter =
      [5, 2] ∧ ¬ ((5 : Int) ≤ 2) := by
  refine ⟨rfl, by decide⟩

/-- Claim C2 (amended): exceptions raised inside the schema or dependency
sub-checks are not caught — for every input text parsing to None, a scalar,
or a list (anything but a mapping), the dependency sub-check raises
AttributeError on `config.get`, and `run_validation_suite` propagates it
instead of returning a report.  Only the cycle sub-check is guarded (it
yields a SKIPPED entry). -/
theorem C2_nonmapping_input_raises (cw : List CurrentWorkload) (v : Yaml)
    (h : v.isMap = false) :
    pdtRunValidationSuite cw (Except.ok v) =
      Except.error (PyErr.attributeError (v.typeName ++ " object has no attribute get")) := by
  cases v with
  | map kvs => simp [Yaml.isMap] at h
  | null => rfl
  | bool b => rfl
  | int n => rfl
  | str s => rfl
  | list xs => rfl

/-- Witness for C2's amended theorem at the concrete input `None`. -/
theorem C2_nonmapping_input_raises_witness :
    pdtRunValidationSuite [] (Except.ok Yaml.null) =
      Except.error (PyErr.attributeError (Yaml.null.typeName ++ " object has no attribute get")) :=
  C2_nonmapping_input_raises [] Yaml.null rfl

/-- Claim C7 (amended): `validate_and_heal` contains no exception handler,
so any exception raised by the validation suite propagates unchanged to the
caller (only YAML parse failures inside `auto_fix` and the cycle/conflict
sub-check guards are contained elsewhere). -/
theorem C7_exceptions_propagate (cwNames : List String) (doc : ParsedYaml)
    (autoHeal : Bool) (e : PyErr)
    (h : dvRunValidationSuite cwNames doc = Except.error e) :
    validateAndHeal cwNames doc autoHeal = Except.error e := by
  unfold validateAndHeal
  rw [h]
  rfl

/-- Witness for C7's amended theorem: a workload spec that is a list makes
the dependency sub-check raise, and `validate_and_heal` re-raises. -/
theorem C7_exceptions_propagate_witness :
    validateAndHeal [] (wldoc [("app", ylist [])]) true =
      Except.error (PyErr.attributeError "list object has no attribute get") :=
  C7_exceptions_propagate [] (wldoc [("app", ylist [])]) true
    (PyErr.attributeError "list object has no attribute get") rfl

/-- Claim C9 (amended): healing is idempotent only when a pass succeeds —
if `validate_and_heal` returns a result with `success = true` (either the
document was already valid, or the healed config re-validated cleanly),
then a second pass on its `config` applies no further change: it returns
`healed = false` with the same config.  In general a second pass may heal
again (see the counterexample). -/
theorem C9_second_pass_noop_on_success (cwNames : List String) (doc : ParsedYaml)
    (autoHeal : Bool) (r : HealResult)
    (h : validateAndHeal cwNames doc autoHeal = Except.ok r) (hs : r.success = true) :
    ∃ r2, validateAndHeal cwNames r.config true = Except.ok r2 ∧
      r2.healed = false ∧ r2.config = r.config := by
  unfold validateAndHeal at h
  cases hrep : dvRunValidationSuite cwNames doc with
  | error e =>
    rw [hrep, exceptBindErr] at h
    cases h
  | ok report =>
    rw [hrep, exceptBindOk] at h
    by_cases he : (extractErrors report).isEmpty
    · rw [if_pos he] at h
      injection h with h2
      subst h2
      refine ⟨_, ?_, rfl, rfl⟩
      unfold validateAndHeal
      rw [hrep, exceptBindOk, if_pos he]
    · rw [if_neg he] at h
      cases autoHeal with
      | false =>
        rw [if_neg (by simp)] at h
        injection h with h2
        subst h2
        simp at hs
      | true =>
        rw [if_pos (by simp)] at h
        cases hfix : autoFix doc (extractErrors report) with
        | error e =>
          rw [hfix, exceptBindErr] at h
          cases h
        | ok fix =>
          rw [hfix, exceptBindOk] at h
          by_cases hhl : (!(fix.1 == doc)) = true
          · rw [if_pos hhl] at h
            cases hrep2 : dvRunValidationSuite cwNames fix.1 with
            | error e =>
              rw [hrep2, exceptBindErr] at h
              cases h
            | ok rep2 =>
              rw [hrep2, exceptBindOk] at h
              by_cases he2 : (extractErrors rep2).isEmpty
              · rw [if_pos he2] at h
                injection h with h2
                subst h2
                refine ⟨{ success := true, original_valid := true, healed := false,
                          final_valid := true, config := fix.1, validation_report := rep2,
                          healed_validation := none,
                          healing_report :=
                            { attempted := false,
                              logs := ["Configuration is valid. No healing required."],
                              remaining_issues := none } }, ?_, rfl, rfl⟩
                show validateAndHeal cwNames fix.1 true = _
                unfold validateAndHeal
                rw [hrep2, exceptBindOk, if_pos he2]
              · rw [if_neg he2] at h
                injection h with h2
                subst h2
                simp at hs
          · rw [if_neg hhl] at h
            injection h with h2
            subst h2
            simp at hs

/-- Witness for C9's amended theorem: the valid document `docC1` yields a
successful first pass, and the second pass is a no-op. -/
theorem C9_second_pass_noop_on_success_witness :
    validateAndHeal [] docC1 true = Except.ok (firstHealPass [] docC1) ∧
    (firstHealPass [] docC1).success = true ∧
    ∃ r2, validateAndHeal [] (firstHealPass [] docC1).config true = Except.ok r2 ∧
      r2.healed = false ∧ r2.config = (firstHealPass [] docC1).config :=
  ⟨rfl, rfl, C9_second_pass_noop_on_success [] docC1 true (firstHealPass [] docC1) rfl rfl⟩

theorem admitLoop_all_fit (w : SimWorkloads) (cap : Capacity) (order : List String) :
    ∀ (pending : List String) (uc um : Int) (tl : List SimEvent) (is : List SimIssue),
      seqFits w cap pending uc um →
      admitLoop w cap order pending uc um tl is =
        { success := true, issues := is, plan_order := order,
          timeline := tl ++ okTimeline w pending uc um } := by
  intro pending
  induction pending with
  | nil =>
    intro uc um tl is _
    simp [admitLoop, okTimeline]
  | cons svc rest ih =>
    intro uc um tl is hfit
    obtain ⟨hstep, hrest⟩ := hfit
    unfold admitLoop
    rw [hstep]
    simp only [Bool.false_eq_true, if_false]
    rw [ih _ _ _ _ hrest]
    simp [okTimeline]

theorem admitLoop_first_overcommit (w : SimWorkloads) (cap : Capacity) (order : List String) :
    ∀ (good : List String) (bad : String) (rest : List String) (uc um : Int)
      (tl : List SimEvent) (is : List SimIssue),
      seqFits w cap good uc um →
      stepOver w cap (uc + cpuSum w good) (um + memSum w good) bad = true →
      admitLoop w cap order (good ++ bad :: rest) uc um tl is =
        { success := false,
          issues := is ++ [SimIssue.resource_overcommit bad
            (overcommitMsg bad (uc + cpuSum w good + cpuOf w bad) cap.cpu
              (um + memSum w good + memOf w bad) cap.memory)],
          plan_order := order,
          timeline := tl ++ okTimeline w good uc um ++
            [SimEvent.starting bad (cpuOf w bad) (memOf w bad)
               (uc + cpuSum w good) (um + memSum w good),
             SimEvent.failed_to_start bad (cpuOf w bad) (memOf w bad)
               (overcommitMsg bad (uc + cpuSum w good + cpuOf w bad) cap.cpu
                 (um + memSum w good + memOf w bad) cap.memory)] } := by
  intro good
  induction good with
  | nil =>
    intro bad rest uc um tl is _ hbad
    simp only [cpuSum, memSum, List.map_nil, List.sum_nil, add_zero] at hbad
    simp only [List.nil_append]
    unfold admitLoop
    rw [hbad]
    simp [okTimeline, cpuSum, memSum]
  | cons svc grest ih =>
    intro bad rest uc um tl is hfit hbad
    obtain ⟨hstep, hrestfit⟩ := hfit
    show admitLoop w cap order (svc :: (grest ++ bad :: rest)) uc um tl is = _
    unfold admitLoop
    rw [hstep]
    simp only [Bool.false_eq_true, if_false]
    rw [ih bad rest _ _ _ _ hrestfit (by
      simp only [cpuSum, memSum, List.map_cons, List.sum_cons, ← add_assoc] at hbad
      exact hbad)]
    simp only [cpuSum, memSum, List.map_cons, List.sum_cons, okTimeline, ← add_assoc,
      List.append_assoc, List.cons_append, List.nil_append]

theorem listSplitAt {α : Type} (d : α) : ∀ (l : List α) (i : Nat), i < l.length →
    l = l.take i ++ l.getD i d :: l.drop (i + 1) := by
  intro l
  induction l with
  | nil => intro i hi; simp at hi
  | cons a rest ih =>
    intro i hi
    cases i with
    | zero => simp
    | succ k =>
      simp only [List.take_succ_cons, List.drop_succ_cons, List.getD_cons_succ, List.cons_append]
      exact congrArg (a :: ·) (ih k (by simpa using hi))

theorem takeTakeLe {α : Type} : ∀ (l : List α) (i j : Nat), j ≤ i →
    (l.take i).take j = l.take j := by
  intro l
  induction l with
  | nil => intro i j _; simp
  | cons a rest ih =>
    intro i j hj
    cases i with
    | zero =>
      have : j = 0 := Nat.le_zero.mp hj
      subst this; simp
    | succ k =>
      cases j with
      | zero => simp
      | succ m =>
        simp only [List.take_succ_cons]
        exact congrArg (a :: ·) (ih k m (by omega))

theorem takeGetD {α : Type} (d : α) : ∀ (l : List α) (i j : Nat), j < i →
    (l.take i).getD j d = l.getD j d := by
  intro l
  induction l with
  | nil => intro i j _; simp
  | cons a rest ih =>
    intro i j hj
    cases i with
    | zero => exact absurd hj (Nat.not_lt_zero j)
    | succ k =>
      cases j with
      | zero => simp
      | succ m =>
        simp only [List.take_succ_cons, List.getD_cons_succ]
        exact ih k m (by omega)

theorem seqFits_of_stepOver (w : SimWorkloads) (cap : Capacity) :
    ∀ (l : List String) (uc um : Int),
      (∀ j, j < l.length →
        stepOver w cap (uc + cpuSum w (l.take j)) (um + memSum w (l.take j)) (l.getD j "") = false) →
      seqFits w cap l uc um := by
  intro l
  induction l with
  | nil => intro uc um _; exact trivial
  | cons a rest ih =>
    intro uc um hall
    refine ⟨?_, ?_⟩
    · have h0 := hall 0 (by simp)
      simpa [cpuSum, memSum] using h0
    · apply ih
      intro j hj
      have hs := hall (j + 1) (by simpa using Nat.succ_lt_succ hj)
      simp only [List.take_succ_cons, List.getD_cons_succ, cpuSum, memSum, List.map_cons,
        List.sum_cons, ← add_assoc] at hs
      exact hs

theorem admitLoop_run_first_overcommit (w : SimWorkloads) (cap : Capacity)
    (order : List String) (i : Nat) (hi : i < order.length)
    (hfits : seqFits w cap (order.take i) 0 0)
    (hbad : stepOver w cap (cpuSum w (order.take i)) (memSum w (order.take i))
      (order.getD i "") = true) (is : List SimIssue) :
    admitLoop w cap order order 0 0 [] is =
      { success := false, issues := is ++ [overIssueAt w cap order i],
        plan_order := order, timeline := failTimelineAt w cap order i } := by
  have hsplit := listSplitAt "" order i hi
  have h := admitLoop_first_overcommit w cap order (order.take i) (order.getD i "")
    (order.drop (i + 1)) 0 0 [] is hfits (by simpa [zero_add] using hbad)
  rw [← hsplit] at h
  rw [h]
  simp [overIssueAt, failTimelineAt, zero_add]

/-- Claim C4: for every workloads map whose topological sort succeeds with
some order, if position `i` of the order is the first whose cpu or memory
demand added to the cumulative usage exceeds capacity, then
`simulate_deployment` (both variants) returns success=false, exactly one
`resource_overcommit` issue naming that workload (preceded only by the
`simulation/` variant's missing-dependency advisory), the full computed
order as `plan_order`, and the partial timeline: starting/started pairs for
the already admitted prefix (not rolled back), then the starting and
failed_to_start events of the overcommitted workload, and nothing further. -/
theorem C4_overcommit_stops_processing
    (w : SimWorkloads) (cap : Capacity) (order : List String) (missing : List String)
    (i : Nat) (hi : i < order.length)
    (hok : ∀ j, j < i → overcommitAt w cap order j = false)
    (hbad : overcommitAt w cap order i = true) :
    (SimuSim.topoSort w = (true, order, none, missing) →
       SimuSim.simulateDeployment w cap =
         { success := false,
           issues := missingIssues missing ++ [overIssueAt w cap order i],
           plan_order := order, timeline := failTimelineAt w cap order i }) ∧
    (DeploySim.topoSort w = (true, order, none) →
       DeploySim.simulateDeployment w cap =
         { success := false, issues := [overIssueAt w cap order i],
           plan_order := order, timeline := failTimelineAt w cap order i }) := by
  have hfits : seqFits w cap (order.take i) 0 0 := by
    apply seqFits_of_stepOver
    intro j hj
    have hj2 : j < i := by
      have : (order.take i).length = i := by
        simp [List.length_take, Nat.min_eq_left hi.le]
      omega
    have hov := hok j hj2
    unfold overcommitAt at hov
    rw [takeTakeLe order i j hj2.le, takeGetD "" order i j hj2]
    simpa [zero_add] using hov
  have hbad2 : stepOver w cap (cpuSum w (order.take i)) (memSum w (order.take i))
      (order.getD i "") = true := by
    simpa [overcommitAt] using hbad
  constructor
  · intro htopo
    unfold SimuSim.simulateDeployment
    rw [htopo]
    dsimp only
    rw [admitLoop_run_first_overcommit w cap order i hi hfits hbad2]
    simp [missingIssues]
  · intro htopo
    unfold DeploySim.simulateDeployment
    rw [htopo]
    dsimp only
    rw [admitLoop_run_first_overcommit w cap order i hi hfits hbad2]
    simp

/-- Witness for C4 at a concrete input: workload `a` (cpu 10) alone exceeds
capacity cpu 8, so the run fails immediately with one overcommit issue. -/
theorem C4_overcommit_stops_processing_witness :
    SimuSim.simulateDeployment wlC4 capC4 =
      { success := false,
        issues := missingIssues [] ++ [overIssueAt wlC4 capC4 ["a", "b"] 0],
        plan_order := ["a", "b"],
        timeline := failTimelineAt wlC4 capC4 ["a", "b"] 0 } :=
  (C4_overcommit_stops_processing wlC4 capC4 ["a", "b"] [] 0 (by decide)
    (fun j hj => absurd hj (Nat.not_lt_zero j)) (by decide)).1 rfl

theorem cpuOf_nonneg (w : SimWorkloads) (h : ∀ kv ∈ w, 0 ≤ specCpu kv.2) (svc : String) :
    0 ≤ cpuOf w svc := by
  unfold cpuOf simLookup
  cases hf : w.find? (fun kv => kv.1 == svc) with
  | none => simp [specCpu]
  | some kv => exact h kv (List.mem_of_find?_eq_some hf)

theorem memOf_nonneg (w : SimWorkloads) (h : ∀ kv ∈ w, 0 ≤ specMem kv.2) (svc : String) :
    0 ≤ memOf w svc := by
  unfold memOf simLookup
  cases hf : w.find? (fun kv => kv.1 == svc) with
  | none => simp [specMem]
  | some kv => exact h kv (List.mem_of_find?_eq_some hf)

theorem startedSeq_get_props (w : SimWorkloads) (cap : Capacity) :
    ∀ (l : List String) (uc um : Int), seqFits w cap l uc um →
      ∀ k (hk : k < (startedSeq w l uc um).length),
        ((startedSeq w l uc um).get ⟨k, hk⟩).cpuAfter =
          uc + (((startedSeq w l uc um).take (k + 1)).map SimEvent.cpuDemand).sum ∧
        ((startedSeq w l uc um).get ⟨k, hk⟩).cpuAfter ≤ cap.cpu ∧
        ((startedSeq w l uc um).get ⟨k, hk⟩).memAfter =
          um + (((startedSeq w l uc um).take (k + 1)).map SimEvent.memDemand).sum ∧
        ((startedSeq w l uc um).get ⟨k, hk⟩).memAfter ≤ cap.memory := by
  intro l
  induction l with
  | nil => intro uc um _ k hk; simp [startedSeq] at hk
  | cons a rest ih =>
    intro uc um hfit k hk
    obtain ⟨hstep, hrest⟩ := hfit
    have hcap : uc + cpuOf w a ≤ cap.cpu ∧ um + memOf w a ≤ cap.memory := by
      simp only [stepOver, Bool.or_eq_false_iff, decide_eq_false_iff_not, not_lt] at hstep
      exact hstep
    cases k with
    | zero =>
      refine ⟨?_, hcap.1, ?_, hcap.2⟩
      · simp [startedSeq, SimEvent.cpuAfter, SimEvent.cpuDemand]
      · simp [startedSeq, SimEvent.memAfter, SimEvent.memDemand]
    | succ m =>
      have hm : m < (startedSeq w rest (uc + cpuOf w a) (um + memOf w a)).length := by
        simpa [startedSeq] using hk
      have := ih (uc + cpuOf w a) (um + memOf w a) hrest m hm
      simpa [startedSeq, List.take_succ_cons, List.map_cons, List.sum_cons,
        SimEvent.cpuDemand, SimEvent.memDemand, ← add_assoc] using this

theorem startedSeq_cpu_lb (w : SimWorkloads) (hc : ∀ svc, 0 ≤ cpuOf w svc) :
    ∀ (l : List String) (uc um x : Int),
      ((startedSeq w l uc um).map SimEvent.cpuAfter).head? = some x → uc ≤ x := by
  intro l
  cases l with
  | nil => intro uc um x hx; simp [startedSeq] at hx
  | cons a rest =>
    intro uc um x hx
    simp [startedSeq, SimEvent.cpuAfter] at hx
    subst hx
    have := hc a
    omega

theorem startedSeq_mem_lb (w : SimWorkloads) (hc : ∀ svc, 0 ≤ memOf w svc) :
    ∀ (l : List String) (uc um x : Int),
      ((startedSeq w l uc um).map SimEvent.memAfter).head? = some x → um ≤ x := by
  intro l
  cases l with
  | nil => intro uc um x hx; simp [startedSeq] at hx
  | cons a rest =>
    intro uc um x hx
    simp [startedSeq, SimEvent.memAfter] at hx
    subst hx
    have := hc a
    omega

theorem startedSeq_cpu_chain (w : SimWorkloads) (hc : ∀ svc, 0 ≤ cpuOf w svc) :
    ∀ (l : List String) (uc um : Int),
      ((startedSeq w l uc um).map SimEvent.cpuAfter).Chain' (· ≤ ·) := by
  intro l
  induction l with
  | nil => intro uc um; simp [startedSeq]
  | cons a rest ih =>
    intro uc um
    simp only [startedSeq, List.map_cons]
    rw [List.chain'_cons']
    refine ⟨?_, ih _ _⟩
    intro y hy
    have hy2 : ((startedSeq w rest (uc + cpuOf w a) (um + memOf w a)).map
        SimEvent.cpuAfter).head? = some y := by
      simpa using hy
    have := startedSeq_cpu_lb w hc rest (uc + cpuOf w a) (um + memOf w a) y hy2
    simpa [SimEvent.cpuAfter] using this

theorem startedSeq_mem_chain (w : SimWorkloads) (hc : ∀ svc, 0 ≤ memOf w svc) :
    ∀ (l : List String) (uc um : Int),
      ((startedSeq w l uc um).map SimEvent.memAfter).Chain' (· ≤ ·) := by
  intro l
  induction l with
  | nil => intro uc um; simp [startedSeq]
  | cons a rest ih =>
    intro uc um
    simp only [startedSeq, List.map_cons]
    rw [List.chain'_cons']
    refine ⟨?_, ih _ _⟩
    intro y hy
    have hy2 : ((startedSeq w rest (uc + cpuOf w a) (um + memOf w a)).map
        SimEvent.memAfter).head? = some y := by
      simpa using hy
    have := startedSeq_mem_lb w hc rest (uc + cpuOf w a) (um + memOf w a) y hy2
    simpa [SimEvent.memAfter] using this

theorem admitLoop_startedOf (w : SimWorkloads) (cap : Capacity) (order : List String) :
    ∀ (pending : List String) (uc um : Int) (tl : List SimEvent) (is : List SimIssue),
      ∃ l, startedOf (admitLoop w cap order pending uc um tl is).timeline =
             startedOf tl ++ startedSeq w l uc um ∧ seqFits w cap l uc um := by
  intro pending
  induction pending with
  | nil =>
    intro uc um tl is
    exact ⟨[], by simp [admitLoop, startedSeq, startedOf], trivial⟩
  | cons svc rest ih =>
    intro uc um tl is
    unfold admitLoop
    by_cases hg : stepOver w cap uc um svc = true
    · rw [hg]
      refine ⟨[], ?_, trivial⟩
      simp [startedOf, startedSeq, SimEvent.isStarted, List.filter_append]
    · have hg2 : stepOver w cap uc um svc = false := by
        cases hv : stepOver w cap uc um svc
        · rfl
        · exact absurd hv hg
      rw [hg2]
      simp only [Bool.false_eq_true, if_false]
      obtain ⟨l, hl, hf⟩ := ih (uc + cpuOf w svc) (um + memOf w svc)
        (tl ++ [SimEvent.starting svc (cpuOf w svc) (memOf w svc) uc um] ++
          [SimEvent.started svc (cpuOf w svc) (memOf w svc)
            (uc + cpuOf w svc) (um + memOf w svc)]) is
      refine ⟨svc :: l, ?_, hg2, hf⟩
      rw [hl]
      simp [startedOf, startedSeq, List.filter_append, SimEvent.isStarted]

theorem simulate_startedOf (w : SimWorkloads) (cap : Capacity) (r : SimResult)
    (hr : r = SimuSim.simulateDeployment w cap ∨ r = DeploySim.simulateDeployment w cap) :
    ∃ l, startedOf r.timeline = startedSeq w l 0 0 ∧ seqFits w cap l 0 0 := by
  rcases hr with h | h <;> subst h
  · unfold SimuSim.simulateDeployment
    rcases htp : SimuSim.topoSort w with ⟨ok, order, cycles, missing⟩
    cases ok with
    | false =>
      dsimp only
      exact ⟨[], by simp [startedOf, startedSeq], trivial⟩
    | true =>
      dsimp only
      obtain ⟨l, hl, hf⟩ := admitLoop_startedOf w cap order order 0 0 []
        (if missing.isEmpty then []
         else [SimIssue.missing_dependency missing
           ("Missing referenced workloads: " ++ String.intercalate ", " missing)])
      exact ⟨l, by simpa [startedOf] using hl, hf⟩
  · unfold DeploySim.simulateDeployment
    rcases htp : DeploySim.topoSort w with ⟨ok, order, cycles⟩
    cases ok with
    | false =>
      dsimp only
      exact ⟨[], by simp [startedOf, startedSeq], trivial⟩
    | true =>
      dsimp only
      obtain ⟨l, hl, hf⟩ := admitLoop_startedOf w cap order order 0 0 [] []
      exact ⟨l, by simpa [startedOf] using hl, hf⟩

/-- Claim C10 (amended): in every timeline either `simulate_deployment`
returns, each `started` event's `used_cpu_after`/`used_mem_after` equals the
sum of the cpu/memory demands of the workloads started so far and stays
within capacity; when all demands in the map are nonnegative, cumulative
usage is also nondecreasing.  (The original claim's unconditional
"never decreases" fails for negative demands — see the counterexample.) -/
theorem C10_timeline_invariant (w : SimWorkloads) (cap : Capacity) (r : SimResult)
    (hr : r = SimuSim.simulateDeployment w cap ∨ r = DeploySim.simulateDeployment w cap) :
    (∀ k (hk : k < (startedOf r.timeline).length),
       ((startedOf r.timeline).get ⟨k, hk⟩).cpuAfter =
         (((startedOf r.timeline).take (k + 1)).map SimEvent.cpuDemand).sum ∧
       ((startedOf r.timeline).get ⟨k, hk⟩).cpuAfter ≤ cap.cpu ∧
       ((startedOf r.timeline).get ⟨k, hk⟩).memAfter =
         (((startedOf r.timeline).take (k + 1)).map SimEvent.memDemand).sum ∧
       ((startedOf r.timeline).get ⟨k, hk⟩).memAfter ≤ cap.memory) ∧
    ((∀ kv ∈ w, 0 ≤ specCpu kv.2 ∧ 0 ≤ specMem kv.2) →
       ((startedOf r.timeline).map SimEvent.cpuAfter).Chain' (· ≤ ·) ∧
       ((startedOf r.timeline).map SimEvent.memAfter).Chain' (· ≤ ·)) := by
  obtain ⟨l, hl, hf⟩ := simulate_startedOf w cap r hr
  rw [hl]
  constructor
  · intro k hk
    have := startedSeq_get_props w cap l 0 0 hf k hk
    simpa [zero_add] using this
  · intro hnn
    refine ⟨startedSeq_cpu_chain w (fun svc => cpuOf_nonneg w (fun kv hkv => (hnn kv hkv).1) svc) l 0 0,
            startedSeq_mem_chain w (fun svc => memOf_nonneg w (fun kv hkv => (hnn kv hkv).2) svc) l 0 0⟩

/-- Witness for C10's amended theorem at the three-workload chain: the
started usage sequences are nondecreasing and the first started event's
usage equals its own demand and is within capacity. -/
theorem C10_timeline_invariant_witness :
    ((startedOf (SimuSim.simulateDeployment wlC3 capC3).timeline).map
      SimEvent.cpuAfter).Chain' (· ≤ ·) ∧
    ((startedOf (SimuSim.simulateDeployment wlC3 capC3).timeline).map
      SimEvent.memAfter).Chain' (· ≤ ·) :=
  (C10_timeline_invariant wlC3 capC3 (SimuSim.simulateDeployment wlC3 capC3)
    (Or.inl rfl)).2 (by decide)

theorem depGraphEntry_fst (kv : String × Yaml) (x : String × List String)
    (h : (do
      let deps ← pyGetD kv.2 "dependencies" (ymap [])
      let ks ← pyKeys deps
      pure (kv.1, ks) : Except PyErr (String × List String)) = .ok x) : x.1 = kv.1 := by
  cases hd : pyGetD kv.2 "dependencies" (ymap []) with
  | error e => rw [hd, exceptBindErr] at h; cases h
  | ok deps =>
    rw [hd, exceptBindOk] at h
    cases hk : pyKeys deps with
    | error e => rw [hk, exceptBindErr] at h; cases h
    | ok ks =>
      rw [hk, exceptBindOk] at h
      injection h with h2
      rw [← h2]

theorem depGraph_keys : ∀ (workloads : List (String × Yaml)) (graph : List (String × List String)),
    (workloads.mapM (fun kv => do
      let deps ← pyGetD kv.2 "dependencies" (ymap [])
      let ks ← pyKeys deps
      pure (kv.1, ks)) : Except PyErr (List (String × List String))) = .ok graph →
    graph.map Prod.fst = workloads.map Prod.fst := by
  intro workloads
  induction workloads with
  | nil =>
    intro graph h
    simp only [List.mapM_nil, pure, Except.pure] at h
    injection h with h2
    rw [← h2]
    rfl
  | cons kv rest ih =>
    intro graph h
    rw [List.mapM_cons] at h
    cases hf : (do
        let deps ← pyGetD kv.2 "dependencies" (ymap [])
        let ks ← pyKeys deps
        pure (kv.1, ks) : Except PyErr (String × List String)) with
    | error e => rw [hf, exceptBindErr] at h; cases h
    | ok x =>
      rw [hf, exceptBindOk] at h
      cases hrest : (rest.mapM (fun kv => do
          let deps ← pyGetD kv.2 "dependencies" (ymap [])
          let ks ← pyKeys deps
          pure (kv.1, ks)) : Except PyErr (List (String × List String))) with
      | error e => rw [hrest, exceptBindErr] at h; cases h
      | ok xs =>
        rw [hrest, exceptBindOk] at h
        injection h with h2
        rw [← h2]
        simp only [List.map_cons]
        rw [ih xs hrest, depGraphEntry_fst kv x hf]

theorem depDfsNeighbors_inv
    (graph : List (String × List String))
    (dfsF : String → List String → DfsSt → Except PyErr (Bool × DfsSt))
    (hdfs : ∀ n path st b st2, n ∈ graph.map Prod.fst →
      (∀ x ∈ path, x ∈ graph.map Prod.fst) →
      (∀ c ∈ st.cycles, ∀ m ∈ c, m ∈ graph.map Prod.fst) →
      dfsF n path st = .ok (b, st2) →
      ∀ c ∈ st2.cycles, ∀ m ∈ c, m ∈ graph.map Prod.fst)
    (path : List String) (hpath : ∀ x ∈ path, x ∈ graph.map Prod.fst) :
    ∀ (ns : List String) (st : DfsSt),
      (∀ c ∈ st.cycles, ∀ m ∈ c, m ∈ graph.map Prod.fst) →
      ∀ b st2, depDfsNeighbors dfsF graph path ns st = .ok (b, st2) →
      ∀ c ∈ st2.cycles, ∀ m ∈ c, m ∈ graph.map Prod.fst := by
  intro ns
  induction ns with
  | nil =>
    intro st hst b st2 h
    unfold depDfsNeighbors at h
    injection h with h2
    injection h2 with _ h3
    rw [← h3]
    exact hst
  | cons n rest ih =>
    intro st hst b st2 h
    unfold depDfsNeighbors at h
    by_cases hmem : ((graph.map Prod.fst).contains n) = true
    · rw [hmem] at h
      simp only [Bool.not_true, Bool.false_eq_true, if_false] at h
      by_cases hvis : (st.visited.contains n) = true
      · rw [hvis] at h
        simp only [Bool.not_true, Bool.false_eq_true, if_false] at h
        by_cases hrec : (st.recStack.contains n) = true
        · rw [hrec] at h
          simp only [if_true] at h
          cases hpi : pyIndex path n with
          | error e => rw [hpi, exceptBindErr] at h; cases h
          | ok i =>
            rw [hpi, exceptBindOk] at h
            injection h with h2
            injection h2 with _ h3
            rw [← h3]
            intro c hc m hm
            simp only [List.mem_append, List.mem_singleton] at hc
            cases hc with
            | inl hc0 => exact hst c hc0 m hm
            | inr hc1 =>
              subst hc1
              simp only [List.mem_append, List.mem_singleton] at hm
              cases hm with
              | inl hm0 => exact hpath m (List.mem_of_mem_drop hm0)
              | inr hm1 =>
                subst hm1
                exact (by simpa using hmem)
        · have hrec2 : (st.recStack.contains n) = false := by
            cases hv : st.recStack.contains n
            · rfl
            · exact absurd hv hrec
          rw [hrec2] at h
          simp only [Bool.false_eq_true, if_false] at h
          exact ih st hst b st2 h
      · have hvis2 : (st.visited.contains n) = false := by
          cases hv : st.visited.contains n
          · rfl
          · exact absurd hv hvis
        rw [hvis2] at h
        simp only [Bool.not_false, if_true] at h
        cases hdf : dfsF n path st with
        | error e => rw [hdf, exceptBindErr] at h; cases h
        | ok r =>
          rw [hdf, exceptBindOk] at h
          have hstR : ∀ c ∈ r.2.cycles, ∀ m ∈ c, m ∈ graph.map Prod.fst :=
            hdfs n path st r.1 r.2 ((by simpa using hmem)) hpath hst
              (by rw [hdf])
          by_cases hfound : r.1 = true
          · rw [hfound] at h
            simp only [if_true] at h
            injection h with h2
            injection h2 with _ h3
            rw [← h3]
            exact hstR
          · have hf2 : r.1 = false := by
              cases hv : r.1
              · rfl
              · exact absurd hv hfound
            rw [hf2] at h
            simp only [Bool.false_eq_true, if_false] at h
            exact ih r.2 hstR b st2 h
    · have hmem2 : ((graph.map Prod.fst).contains n) = false := by
        cases hv : (graph.map Prod.fst).contains n
        · rfl
        · exact absurd hv hmem
      rw [hmem2] at h
      simp only [Bool.not_false, if_true] at h
      exact ih st hst b st2 h

theorem depDfs_inv (graph : List (String × List String)) :
    ∀ (fuel : Nat) (node : String) (path : List String) (st : DfsSt),
      node ∈ graph.map Prod.fst →
      (∀ x ∈ path, x ∈ graph.map Prod.fst) →
      (∀ c ∈ st.cycles, ∀ m ∈ c, m ∈ graph.map Prod.fst) →
      ∀ b st2, depDfs graph fuel node path st = .ok (b, st2) →
      ∀ c ∈ st2.cycles, ∀ m ∈ c, m ∈ graph.map Prod.fst := by
  intro fuel
  induction fuel with
  | zero =>
    intro node path st _ _ _ b st2 h
    unfold depDfs at h
    cases h
  | succ f ih =>
    intro node path st hnode hpath hst b st2 h
    unfold depDfs at h
    dsimp only at h
    cases hn : depDfsNeighbors (depDfs graph f) graph (path ++ [node])
        (((graph.find? (fun kv => kv.1 == node)).map Prod.snd).getD [])
        { st with visited := st.visited ++ [node], recStack := st.recStack ++ [node] } with
    | error e => rw [hn, exceptBindErr] at h; cases h
    | ok r =>
      rw [hn, exceptBindOk] at h
      have hpath2 : ∀ x ∈ path ++ [node], x ∈ graph.map Prod.fst := by
        intro x hx
        simp only [List.mem_append, List.mem_singleton] at hx
        cases hx with
        | inl hx0 => exact hpath x hx0
        | inr hx1 => subst hx1; exact hnode
      have hstR : ∀ c ∈ r.2.cycles, ∀ m ∈ c, m ∈ graph.map Prod.fst := by
        refine depDfsNeighbors_inv graph (depDfs graph f) ?_ (path ++ [node]) hpath2
          (((graph.find? (fun kv => kv.1 == node)).map Prod.snd).getD [])
          { st with visited := st.visited ++ [node], recStack := st.recStack ++ [node] }
          hst r.1 r.2 (by rw [hn])
        intro n2 p2 s2 b2 s3 hn2 hp2 hs2 hcall
        exact ih n2 p2 s2 hn2 hp2 hs2 b2 s3 hcall
      rcases r with ⟨found, stx⟩
      cases found with
      | true =>
        simp only at h
        injection h with h2
        injection h2 with _ h3
        rw [← h3]
        exact hstR
      | false =>
        simp only at h
        injection h with h2
        injection h2 with _ h3
        rw [← h3]
        exact hstR

theorem depFold_inv (graph : List (String × List String)) :
    ∀ (entries : List (String × List String)) (st0 : DfsSt),
      (∀ c ∈ st0.cycles, ∀ m ∈ c, m ∈ graph.map Prod.fst) →
      (∀ kv ∈ entries, kv.1 ∈ graph.map Prod.fst) →
      ∀ st, (entries.foldlM (fun st kv =>
          if !(st.visited.contains kv.1) then do
            let r ← depDfs graph (graph.length + 1) kv.1 [] st
            pure r.2
          else pure st) st0 : Except PyErr DfsSt) = .ok st →
      ∀ c ∈ st.cycles, ∀ m ∈ c, m ∈ graph.map Prod.fst := by
  intro entries
  induction entries with
  | nil =>
    intro st0 h0 _ st h
    simp only [List.foldlM_nil] at h
    injection h with h2
    rw [← h2]
    exact h0
  | cons kv rest ih =>
    intro st0 h0 hmem st h
    simp only [List.foldlM_cons] at h
    by_cases hv : (st0.visited.contains kv.1) = true
    · rw [hv] at h
      simp only [Bool.not_true, Bool.false_eq_true, if_false] at h
      exact ih st0 h0 (fun q hq => hmem q (List.mem_cons_of_mem kv hq)) st h
    · have hv2 : (st0.visited.contains kv.1) = false := by
        cases hx : st0.visited.contains kv.1
        · rfl
        · exact absurd hx hv
      rw [hv2] at h
      simp only [Bool.not_false, if_true] at h
      cases hd : depDfs graph (graph.length + 1) kv.1 [] st0 with
      | error e => rw [hd, exceptBindErr] at h; cases h
      | ok r =>
        rw [hd, exceptBindOk] at h
        have h1 : ∀ c ∈ r.2.cycles, ∀ m ∈ c, m ∈ graph.map Prod.fst :=
          depDfs_inv graph (graph.length + 1) kv.1 [] st0
            (hmem kv (List.mem_cons_self kv rest)) (by intro x hx; cases hx) h0
            r.1 r.2 (by rw [hd])
        exact ih r.2 h1 (fun q hq => hmem q (List.mem_cons_of_mem kv hq)) st h

theorem detectCircular_cycles_in_keys :
    ∀ (workloads : List (String × Yaml)) (r : Bool × List (List String)),
      detectCircularDependencies workloads = Except.ok r →
      ∀ c ∈ r.2, ∀ n ∈ c, n ∈ workloads.map Prod.fst := by
  intro workloads r h
  unfold detectCircularDependencies at h
  cases hg : (workloads.mapM (fun kv => do
      let deps ← pyGetD kv.2 "dependencies" (ymap [])
      let ks ← pyKeys deps
      pure (kv.1, ks)) : Except PyErr (List (String × List String))) with
  | error e => rw [hg, exceptBindErr] at h; cases h
  | ok graph =>
    rw [hg, exceptBindOk] at h
    have hkeys := depGraph_keys workloads graph hg
    cases hf : (graph.foldlM (fun st kv =>
        if !(st.visited.contains kv.1) then do
          let r ← depDfs graph (graph.length + 1) kv.1 [] st
          pure r.2
        else pure st) (⟨[], [], []⟩ : DfsSt) : Except PyErr DfsSt) with
    | error e => rw [hf, exceptBindErr] at h; cases h
    | ok st =>
      rw [hf, exceptBindOk] at h
      injection h with h2
      rw [← h2]
      have hinv : ∀ c ∈ st.cycles, ∀ m ∈ c, m ∈ graph.map Prod.fst := by
        refine depFold_inv graph graph (⟨[], [], []⟩ : DfsSt) ?_ ?_ st hf
        · intro c hc; cases hc
        · intro q hq
          rw [List.mem_map]
          exact ⟨q, hq, rfl⟩
      intro c hc m hm
      have := hinv c hc m hm
      rw [hkeys] at this
      exact this

/-- Claim C8: cycle detection builds its graph only over names that exist as
workloads in the document — every member of every reported cycle is a
workload key, so a dependency resolving only to an externally running
workload is never part of a reported cycle — and for the three-node cycle
a → b → c → a the validator reports one CIRCULAR_DEPENDENCY issue whose
cycle path `[a, b, c, a]` has length 4 and closes back to the start. -/
theorem C8_cycle_detection :
    (∀ (workloads : List (String × Yaml)) (r : Bool × List (List String)),
        detectCircularDependencies workloads = Except.ok r →
        ∀ c ∈ r.2, ∀ n ∈ c, n ∈ workloads.map Prod.fst) ∧
    validateDependencies [] docC8 = Except.ok (false, [cycIssC8]) ∧
    cycIssC8.cycle = some ["a", "b", "c", "a"] ∧
    (["a", "b", "c", "a"] : List String).length = 4 ∧
    (["a", "b", "c", "a"] : List String).headD "" =
      (["a", "b", "c", "a"] : List String).getLastD "" :=
  ⟨detectCircular_cycles_in_keys, rfl, rfl, rfl, rfl⟩

/-- Witness for C8: the membership property instantiated on the concrete
three-node cycle document. -/
theorem C8_cycle_detection_witness :
    detectCircularDependencies
      [("a", ym [("dependencies", ym [("b", ym [])])]),
       ("b", ym [("dependencies", ym [("c", ym [])])]),
       ("c", ym [("dependencies", ym [("a", ym [])])])] =
      Except.ok (true, [["a", "b", "c", "a"]]) ∧
    (∀ c ∈ [["a", "b", "c", "a"]], ∀ n ∈ c,
      n ∈ ([("a", ym [("dependencies", ym [("b", ym [])])]),
            ("b", ym [("dependencies", ym [("c", ym [])])]),
            ("c", ym [("dependencies", ym [("a", ym [])])])].map Prod.fst)) :=
  ⟨rfl, C8_cycle_detection.1
    [("a", ym [("dependencies", ym [("b", ym [])])]),
     ("b", ym [("dependencies", ym [("c", ym [])])]),
     ("c", ym [("dependencies", ym [("a", ym [])])])]
    (true, [["a", "b", "c", "a"]]) rfl⟩

/-- Helper for C6: a single remediation step on a matching PORT_CONFLICT
issue performs the textual replace on the workload's runtimeConfig. -/
theorem autoFixStep_port (wn rc msg : String) (p : Int) (hp : (p != 0) = true)
    (hm1 : strContains msg "Field \"runtime\" is required" = false)
    (hm2 : strContains msg "Invalid runtime" = false)
    (hm3 : strContains msg "Field \"agent\" is required" = false)
    (hm4 : strContains msg "contains spaces" = false)
    (hm5 : strContains msg "should be lowercase" = false)
    (hm6 : strContains msg "No runtimeConfig specified" = false)
    (hm7 : strContains msg "depends on" = false)
    (hm8 : strContains msg "cannot depend on itself" = false)
    (hp1 : strContains msg "Port" = true)
    (hp2 : strContains msg "already used" = true) :
    autoFixStep (ym [(wn, ym [("runtimeConfig", Yaml.str rc)])], [])
      { mkIss "PORT_CONFLICT" "ERROR" (some wn) msg with port := some p } =
      Except.ok (ym [(wn, ym [("runtimeConfig",
          Yaml.str (strReplace rc (toString p) (toString (p + 1))))])],
        ["Adjusted port conflict for " ++ wn ++ ": " ++ toString p ++ " → " ++
         toString (p + 1) ++ "."]) := by
  unfold autoFixStep
  simp [ym, ymap, YamlMap.ofList, YamlMap.toList, pyMemOpt, pyMem, mkIss,
    hm1, hm2, hm3, hm4, hm5, hm6, hm7, hm8, hp1, hp2, hp,
    pyGetItem, pySetItem, pyReplaceStr, assocLookup, assocSet,
    exceptBindOk]

/-- Claim C6 (amended): the port-conflict fix is a plain textual replace —
for a workload `wn` whose `runtimeConfig` is the text `rc`, and a matching
PORT_CONFLICT issue with nonzero port `p`, `auto_fix` rewrites the whole
runtimeConfig to `rc` with every occurrence of the digit string of `p`
replaced by that of `p + 1` (so container ports and unrelated numbers
containing those digits change as well, contrary to the claim); the
hypotheses pin down the issue-message matching and state that the replaced
text is untouched by the image-qualification and whitespace-normalisation
passes. -/
theorem C6_port_fix_textual_replace (wn rc msg : String) (p : Int)
    (hp : (p != 0) = true)
    (hm1 : strContains msg "Field \"runtime\" is required" = false)
    (hm2 : strContains msg "Invalid runtime" = false)
    (hm3 : strContains msg "Field \"agent\" is required" = false)
    (hm4 : strContains msg "contains spaces" = false)
    (hm5 : strContains msg "should be lowercase" = false)
    (hm6 : strContains msg "No runtimeConfig specified" = false)
    (hm7 : strContains msg "depends on" = false)
    (hm8 : strContains msg "cannot depend on itself" = false)
    (hp1 : strContains msg "Port" = true)
    (hp2 : strContains msg "already used" = true)
    (himg : fixImages wn (strReplace rc (toString p) (toString (p + 1))) =
      (strReplace rc (toString p) (toString (p + 1)), []))
    (hnorm : normalizeRC (strReplace rc (toString p) (toString (p + 1))) =
      strReplace rc (toString p) (toString (p + 1))) :
    autoFix (wldoc [(wn, ym [("runtimeConfig", Yaml.str rc)])])
      [{ mkIss "PORT_CONFLICT" "ERROR" (some wn) msg with port := some p }] =
      Except.ok (wldoc [(wn, ym [("runtimeConfig",
          Yaml.str (strReplace rc (toString p) (toString (p + 1))))])],
        ["Adjusted port conflict for " ++ wn ++ ": " ++ toString p ++ " → " ++
         toString (p + 1) ++ "."]) := by
  have hstep := autoFixStep_port wn rc msg p hp hm1 hm2 hm3 hm4 hm5 hm6 hm7 hm8 hp1 hp2
  simp only [ym, ymap, YamlMap.ofList] at hstep
  unfold autoFix
  simp [wldoc, ym, ymap, YamlMap.ofList, YamlMap.toList, assocLookup,
    List.foldlM_cons, List.foldlM_nil, hstep, exceptBindOk,
    imagePass, normalizePass, sanitizePass, cleanupPass, pyItems, assocSet,
    himg, hnorm]

theorem C6_port_fix_textual_replace_witness :
    autoFix (wldoc [("api", ym [("runtimeConfig", Yaml.str "-p 8080:8080")])])
      [{ mkIss "PORT_CONFLICT" "ERROR" (some "api")
           "Port 8080 is already used by workload \"other\"" with port := some (8080 : Int) }] =
      Except.ok (wldoc [("api", ym [("runtimeConfig",
          Yaml.str (strReplace "-p 8080:8080" (toString (8080 : Int))
            (toString ((8080 : Int) + 1))))])],
        ["Adjusted port conflict for " ++ "api" ++ ": " ++ toString (8080 : Int) ++ " → " ++
         toString ((8080 : Int) + 1) ++ "."]) :=
  C6_port_fix_textual_replace "api" "-p 8080:8080"
    "Port 8080 is already used by workload \"other\"" 8080
    (by decide) (by decide) (by decide) (by decide) (by decide) (by decide)
    (by decide) (by decide) (by decide) (by decide) (by decide) (by rfl) (by rfl)

/-- A filtered list is empty exactly when no element satisfies the predicate. -/
theorem filter_isEmpty_eq_not_any {α : Type} (p : α → Bool) (l : List α) :
    (l.filter p).isEmpty = !l.any p := by
  induction l with
  | nil => rfl
  | cons a t ih => cases hpa : p a <;> simp [List.filter_cons, hpa, ih]

/-- The PASSED/FAILED rollup over a test list equals FAILED exactly when
some test is FAILED. -/
theorem rollup_failed_iff (tests : List TestResult) :
    ((if (tests.filter (fun t => t.status == "FAILED")).isEmpty then "PASSED"
      else "FAILED") = "FAILED") ↔
      tests.any (fun t => t.status == "FAILED") = true := by
  rw [filter_isEmpty_eq_not_any]
  cases h : tests.any (fun t => t.status == "FAILED") <;> simp

/-- Members of a successful `mapM` satisfy any property the function
guarantees of its outputs. -/
theorem mapM_except_forall {α β : Type} (f : α → Except PyErr β) (P : β → Prop)
    (hf : ∀ a b, f a = Except.ok b → P b) :
    ∀ (l : List α) (res : List β), l.mapM f = Except.ok res → ∀ b ∈ res, P b := by
  intro l
  induction l with
  | nil =>
    intro res h b hb
    simp only [List.mapM_nil, pure] at h
    cases h
    cases hb
  | cons a t ih =>
    intro res h b hb
    rw [List.mapM_cons] at h
    cases hfa : f a with
    | error e => rw [hfa, exceptBindErr] at h; cases h
    | ok b0 =>
      rw [hfa, exceptBindOk] at h
      cases hmt : t.mapM f with
      | error e => rw [hmt, exceptBindErr] at h; cases h
      | ok bs =>
        rw [hmt, exceptBindOk] at h
        cases h
        cases hb with
        | head => exact hf a b hfa
        | tail _ hb2 => exact ih bs hmt b hb2

theorem exceptPureBind {α β : Type} (a : α) (f : α → Except PyErr β) :
    ((pure a : Except PyErr α) >>= f) = f a := rfl

/-- Membership in a conditional singleton. -/
theorem mem_ite_nil_iff {α : Type} {i x : α} {c : Bool} :
    (i ∈ if c = true then [x] else []) ↔ c = true ∧ i = x := by
  cases c <;> simp

set_option maxHeartbeats 3000000 in
/-- Every error the schema checker emits for one workload has severity
ERROR, and every warning has severity WARNING. -/
theorem validateWorkload_sev (n : String) (cfg : Yaml) (r : List Issue × List Issue)
    (h : validateWorkload n cfg = Except.ok r) :
    (∀ i ∈ r.1, i.severity = "ERROR") ∧ (∀ i ∈ r.2, i.severity = "WARNING") := by
  unfold validateWorkload at h
  dsimp only at h
  revert h
  generalize pyMem cfg "runtime" = r1
  generalize pyGetItem cfg "runtime" = g1
  generalize pyMem cfg "agent" = r2
  generalize pyMem cfg "restartPolicy" = r3
  generalize pyGetItem cfg "restartPolicy" = g2
  generalize pyMem cfg "runtimeConfig" = r4
  generalize pyGetItem cfg "runtimeConfig" = g3
  intro h
  rcases r1 with e | b1 <;>
    simp only [exceptBindOk, exceptBindErr, exceptPureBind] at h
  · cases h
  rcases r2 with e2 | b2 <;> rcases r3 with e3 | b3 <;> rcases r4 with e4 | b4 <;>
    rcases g1 with eg1 | v1 <;> rcases g2 with eg2 | v2 <;> rcases g3 with eg3 | v3 <;>
    simp only [exceptBindOk, exceptBindErr, exceptPureBind] at h <;>
    (repeat' split at h) <;>
    first
      | (rcases hL : pyLowerStr v3 with eL | lw <;>
          rw [hL] at h <;>
          simp only [exceptBindOk, exceptBindErr, exceptPureBind] at h <;>
          (repeat' split at h) <;>
          first
            | (injection h with h2; subst h2; simp [mkIss])
            | (injection h))
      | (injection h with h2; subst h2; simp [mkIss])
      | (injection h)

/-- The schema checker's validity flag equals emptiness of the ERROR part of
its issue list. -/
theorem validateWorkloadConfig_valid (doc : ParsedYaml) (s : Bool × List Issue)
    (h : validateWorkloadConfig doc = Except.ok s) :
    s.1 = (s.2.filter Issue.isError).isEmpty := by
  unfold validateWorkloadConfig at h
  rcases doc with e | config
  · dsimp only at h
    injection h with h2; subst h2
    simp [mkIss, Issue.isError]
  · dsimp only at h
    split at h
    · injection h with h2; subst h2
      simp [mkIss, Issue.isError]
    · cases hW : pyMem config "workloads" with
      | error e => rw [hW, exceptBindErr] at h; cases h
      | ok hasWl =>
        rw [hW, exceptBindOk] at h
        split at h
        · injection h with h2; subst h2
          simp [mkIss, Issue.isError]
        · cases hG : pyGetD config "workloads" (ymap []) with
          | error e => rw [hG, exceptBindErr] at h; cases h
          | ok wl =>
            rw [hG, exceptBindOk] at h
            cases hI : pyItems wl with
            | error e => rw [hI, exceptBindErr] at h; cases h
            | ok items =>
              rw [hI, exceptBindOk] at h
              cases hM : items.mapM (fun kv => validateWorkload kv.1 kv.2) with
              | error e => rw [hM, exceptBindErr] at h; cases h
              | ok perW =>
                rw [hM, exceptBindOk] at h
                injection h with h2; subst h2
                have hsev := mapM_except_forall (fun kv => validateWorkload kv.1 kv.2)
                  (fun b => (∀ i ∈ b.1, i.severity = "ERROR") ∧
                    (∀ i ∈ b.2, i.severity = "WARNING"))
                  (fun a b hab => validateWorkload_sev a.1 a.2 b hab) items perW hM
                have herrs : ∀ i ∈ (perW.map Prod.fst).flatten, Issue.isError i = true := by
                  intro i hi
                  rcases List.mem_flatten.1 hi with ⟨l, hl, hil⟩
                  rcases List.mem_map.1 hl with ⟨p, hp, rfl⟩
                  have := (hsev p hp).1 i hil
                  simp [Issue.isError, this]
                have hwarns : ∀ i ∈ (perW.map Prod.snd).flatten, Issue.isError i = false := by
                  intro i hi
                  rcases List.mem_flatten.1 hi with ⟨l, hl, hil⟩
                  rcases List.mem_map.1 hl with ⟨p, hp, rfl⟩
                  have := (hsev p hp).2 i hil
                  simp [Issue.isError, this]
                dsimp only
                rw [List.filter_append, List.filter_eq_self.2 herrs,
                  (List.filter_eq_nil_iff).2 (by intro a ha; simp [hwarns a ha]),
                  List.append_nil]

/-- Per-workload missing/self-dependency issues all carry severity ERROR. -/
theorem depPerW_sev (allAvailable : List String) (kv : String × Yaml) (b : List Issue)
    (h : (do
      let deps ← pyGetD kv.2 "dependencies" (ymap [])
      let depNames ← pyIterStrings deps
      pure (depNames.flatMap (fun depName =>
        (if !(allAvailable.contains depName) then
          [{ mkIss "MISSING_DEPENDENCY" "ERROR" (some kv.1)
              ("Dependency " ++ dq depName ++ " does not exist") with
            dependency := some depName,
            recommendation :=
              some ("Create workload " ++ dq depName ++ " first or remove this dependency") }]
         else []) ++
        (if depName == kv.1 then
          [mkIss "SELF_DEPENDENCY" "ERROR" (some kv.1)
            ("Workload " ++ dq kv.1 ++ " cannot depend on itself")]
         else [])))) = Except.ok b) :
    ∀ i ∈ b, i.severity = "ERROR" := by
  cases hG : pyGetD kv.2 "dependencies" (ymap []) with
  | error e => rw [hG, exceptBindErr] at h; cases h
  | ok deps =>
    rw [hG, exceptBindOk] at h
    cases hS : pyIterStrings deps with
    | error e => rw [hS, exceptBindErr] at h; cases h
    | ok depNames =>
      rw [hS, exceptBindOk] at h
      injection h with h2; subst h2
      intro i hi
      rcases List.mem_flatMap.1 hi with ⟨dn, _, hdn⟩
      rcases List.mem_append.1 hdn with h3 | h3 <;>
        rcases mem_ite_nil_iff.1 h3 with ⟨-, rfl⟩ <;> rfl

/-- The dependency checker's validity flag is emptiness of its issue list,
whose members all carry severity ERROR. -/
theorem validateDependencies_shape (cw : List String) (doc : ParsedYaml)
    (d : Bool × List Issue) (h : validateDependencies cw doc = Except.ok d) :
    d.1 = d.2.isEmpty ∧ ∀ i ∈ d.2, i.severity = "ERROR" := by
  unfold validateDependencies at h
  rcases doc with e | config
  · dsimp only at h
    injection h with h2; subst h2
    simp [mkIss]
  · dsimp only at h
    cases hG : pyGetD config "workloads" (ymap []) with
    | error e => rw [hG, exceptBindErr] at h; cases h
    | ok wl =>
      rw [hG, exceptBindOk] at h
      cases hK : pyKeys wl with
      | error e => rw [hK, exceptBindErr] at h; cases h
      | ok newNames =>
        rw [hK, exceptBindOk] at h
        cases hI : pyItems wl with
        | error e => rw [hI, exceptBindErr] at h; cases h
        | ok items =>
          rw [hI, exceptBindOk] at h
          generalize hAvail : cw ++ newNames = allAvailable at h
          cases hM : items.mapM (fun kv => do
            let deps ← pyGetD kv.2 "dependencies" (ymap [])
            let depNames ← pyIterStrings deps
            pure (depNames.flatMap (fun depName =>
              (if !(allAvailable.contains depName) then
                [{ mkIss "MISSING_DEPENDENCY" "ERROR" (some kv.1)
                    ("Dependency " ++ dq depName ++ " does not exist") with
                  dependency := some depName,
                  recommendation :=
                    some ("Create workload " ++ dq depName ++
                      " first or remove this dependency") }]
               else []) ++
              (if depName == kv.1 then
                [mkIss "SELF_DEPENDENCY" "ERROR" (some kv.1)
                  ("Workload " ++ dq kv.1 ++ " cannot depend on itself")]
               else [])))) with
          | error e => rw [hM, exceptBindErr] at h; cases h
          | ok perW =>
            rw [hM, exceptBindOk] at h
            cases hC : detectCircularDependencies items with
            | error e => rw [hC, exceptBindErr] at h; cases h
            | ok cyc =>
              rw [hC, exceptBindOk] at h
              injection h with h2; subst h2
              refine ⟨rfl, ?_⟩
              intro i hi
              dsimp only at hi
              rcases List.mem_append.1 hi with h3 | h3
              · rcases List.mem_flatten.1 h3 with ⟨l, hl, hil⟩
                exact mapM_except_forall _ (fun b => ∀ i ∈ b, i.severity = "ERROR")
                  (fun a b hab => depPerW_sev allAvailable a b hab) items perW hM l hl i hil
              · split at h3
                · rcases List.mem_map.1 h3 with ⟨cycle, -, rfl⟩
                  rfl
                · cases h3

/-- `PreDeploymentTester.run_validation_suite` rolls up exactly as specified:
overall FAILED iff some test entry is FAILED. -/
theorem pdt_overall_iff (cw : List CurrentWorkload) (doc : ParsedYaml) (r : Report)
    (h : pdtRunValidationSuite cw doc = Except.ok r) :
    (r.overall_status = "FAILED" ↔ r.hasFailedTest = true) := by
  unfold pdtRunValidationSuite at h
  dsimp only at h
  cases hs : validateWorkloadConfig doc with
  | error e => rw [hs, exceptBindErr] at h; cases h
  | ok s =>
    rw [hs, exceptBindOk] at h
    cases hd : validateDependencies (cw.map (fun w => w.name)) doc with
    | error e => rw [hd, exceptBindErr] at h; cases h
    | ok d =>
      rw [hd, exceptBindOk] at h
      cases hc : detectConflicts cw doc with
      | error e => rw [hc, exceptBindErr] at h; cases h
      | ok c =>
        rw [hc, exceptBindOk] at h
        injection h with h2; subst h2
        simp only [Report.hasFailedTest]
        exact rollup_failed_iff _

/-- In `DeploymentValidator._run_validation_suite` the rollup ignores the
conflict test: overall FAILED iff some test other than Resource Conflict
Detection is FAILED. -/
theorem dv_overall_iff (names : List String) (doc : ParsedYaml) (r : Report)
    (h : dvRunValidationSuite names doc = Except.ok r) :
    (r.overall_status = "FAILED" ↔
      ∃ t ∈ r.tests, t.status = "FAILED" ∧ t.name ≠ "Resource Conflict Detection") := by
  unfold dvRunValidationSuite at h
  rcases doc with e | config
  · dsimp only at h
    injection h with h2; subst h2
    simp
  · dsimp only at h
    cases hs : validateWorkloadConfig (Except.ok config) with
    | error e => rw [hs, exceptBindErr] at h; cases h
    | ok s =>
      rw [hs, exceptBindOk] at h
      cases hd : validateDependencies names (Except.ok config) with
      | error e => rw [hd, exceptBindErr] at h; cases h
      | ok d =>
        rw [hd, exceptBindOk] at h
        injection h with h2; subst h2
        have hs1 := validateWorkloadConfig_valid (Except.ok config) s hs
        obtain ⟨hd1, hd2⟩ := validateDependencies_shape names (Except.ok config) d hd
        have hdf : d.2.filter Issue.isError = d.2 :=
          List.filter_eq_self.2 (fun a ha => by simp [Issue.isError, hd2 a ha])
        rw [hdf, ← hs1, ← hd1]
        generalize (do
          let wl ← pyGetD config "workloads" (ymap [])
          detectCircularY wl : Except PyErr (Bool × List (List String))) = cy
        obtain ⟨sv, siss⟩ := s
        obtain ⟨dv, diss⟩ := d
        dsimp only at *
        rcases cy with err | ⟨hasCycles, cycles⟩ <;> dsimp only <;>
          cases sv <;> cases dv <;> (try cases hasCycles) <;> simp

/-- Claim C1 (amended): `PreDeploymentTester.run_validation_suite` satisfies
the spec's rollup — overall FAILED iff some test FAILED — but in
`DeploymentValidator._run_validation_suite` the Resource Conflict Detection
test never influences the rollup: overall is FAILED exactly when some OTHER
test is FAILED, so a FAILED conflict test (which its dead
`check_port_conflicts` probe makes unavoidable) does not force overall
FAILED. -/
theorem C1_rollup_characterisation :
    (∀ (cw : List CurrentWorkload) (doc : ParsedYaml) (r : Report),
        pdtRunValidationSuite cw doc = Except.ok r →
        (r.overall_status = "FAILED" ↔ r.hasFailedTest = true)) ∧
    (∀ (names : List String) (doc : ParsedYaml) (r : Report),
        dvRunValidationSuite names doc = Except.ok r →
        (r.overall_status = "FAILED" ↔
          ∃ t ∈ r.tests, t.status = "FAILED" ∧ t.name ≠ "Resource Conflict Detection")) :=
  ⟨pdt_overall_iff, dv_overall_iff⟩

theorem C1_rollup_characterisation_witness :
    (pdtReportC1.overall_status = "FAILED" ↔ pdtReportC1.hasFailedTest = true) ∧
    (dvReportC1.overall_status = "FAILED" ↔
      ∃ t ∈ dvReportC1.tests, t.status = "FAILED" ∧
        t.name ≠ "Resource Conflict Detection") :=
  ⟨C1_rollup_characterisation.1 [] docC1 pdtReportC1 (by rfl),
   C1_rollup_characterisation.2 [] docC1 dvReportC1 (by rfl)⟩
